import Mathlib

/-!
Verification development for the likes-quota tracker and the messaging access
gate of the black-within backend service (src/apps/api/main.py).

Modelling conventions (shallow embedding):
- the relational store is a `DB` value holding one list of rows per table;
  a lookup is a `List.find?` over the table, faithful because every table we
  query carries a uniqueness constraint on the queried key;
- `datetime.utcnow()` is a natural number of seconds since the epoch, passed
  explicitly to each operation (all `utcnow()` calls inside one request are
  identified); `now.date()` is division by `secondsPerDay`;
- an SQLAlchemy session is explicit state passing: reads query the current
  `DB`, pending writes build a candidate `DB`, `session.commit()` adopts it
  and `session.rollback()` discards it.  A commit that can hit a uniqueness
  constraint takes an explicit flag (or raced row) standing for a concurrent
  writer having committed first; with the flag off the sequential behaviour
  is obtained;
- Python `max(0, limit - count)` over non-negative ints is `Nat` truncated
  subtraction `limit - count`;
- an `HTTPException` raised by a handler is an `HErr` value returned next to
  the store state left behind by the commits that already happened.
-/

namespace BlackWithin

/-- Seconds in a UTC day, the granularity of the time model. -/
def secondsPerDay : Nat := 86400

/-- `now.date()`: the UTC day number of a timestamp. -/
def dateOf (t : Nat) : Nat := t / secondsPerDay

/-- `_utc_midnight_of_day` (main.py:1284): midnight starting UTC day `d`. -/
def _utc_midnight_of_day (d : Nat) : Nat := d * secondsPerDay

/-- `_next_utc_midnight` (main.py:1288): midnight at the start of tomorrow. -/
def _next_utc_midnight (now_utc : Nat) : Nat :=
  _utc_midnight_of_day (dateOf now_utc + 1)

/-- Python `str.strip()` (also covering the `(x or "").strip()` idiom on an
optional already defaulted to `""`): drop leading and trailing whitespace. -/
def pyStrip (s : String) : String :=
  ⟨((s.data.dropWhile Char.isWhitespace).reverse.dropWhile Char.isWhitespace).reverse⟩

/-- Row of table `daily_like_counts` (main.py:187-195); unique on (user_id, day). -/
structure DailyLikeCount where
  user_id : String
  day : Nat
  count : Nat
  updated_at : Nat
  window_started_at : Option Nat
deriving Repr, DecidableEq

/-- Row of table `likes` (main.py:178-184); unique on (user_id, profile_id). -/
structure LikeRow where
  user_id : String
  profile_id : String
  created_at : Nat
deriving Repr, DecidableEq

/-- Row of table `profiles` (main.py:135-166), restricted to the fields the
liking and messaging handlers read. -/
structure Profile where
  id : String
  owner_user_id : String
  photo : Option String
  photo2 : Option String
  is_banned : Bool
deriving Repr, DecidableEq

/-- Row of table `notifications` (main.py:198-208). -/
structure NotificationRow where
  user_id : String
  type : String
  message : String
  created_at : Nat
  actor_user_id : Option String
  profile_id : Option String
  actor_profile_id : Option String
deriving Repr, DecidableEq

/-- Row of table `threads` (main.py:231-238); unique on (user_low, user_high). -/
structure Thread where
  id : String
  user_low : String
  user_high : String
  created_at : Nat
  updated_at : Nat
deriving Repr, DecidableEq

/-- Row of table `messages` (main.py:241-247). -/
structure MessageRow where
  thread_id : String
  sender_user_id : String
  body : String
  created_at : Nat
deriving Repr, DecidableEq

/-- Row of table `messaging_entitlements` (main.py:250-255); user_id unique. -/
structure Entitlement where
  user_id : String
  is_premium : Bool
  updated_at : Nat
deriving Repr, DecidableEq

/-- Row of table `thread_unlocks` (main.py:258-265); unique on (thread_id, user_id). -/
structure ThreadUnlock where
  thread_id : String
  user_id : String
  created_at : Nat
  updated_at : Nat
deriving Repr, DecidableEq

/-- The relational store: one list of rows per table the core touches. -/
structure DB where
  users : List String
  profiles : List Profile
  likes : List LikeRow
  daily_like_counts : List DailyLikeCount
  notifications : List NotificationRow
  threads : List Thread
  messages : List MessageRow
  entitlements : List Entitlement
  thread_unlocks : List ThreadUnlock
deriving Repr, DecidableEq

/-- The empty store. -/
def DB.empty : DB := ⟨[], [], [], [], [], [], [], [], []⟩

/-- Process-wide configuration, read from the environment at start
(main.py:61, 68, 69, and the admin unlock key). -/
structure Config where
  FREE_LIKES_PER_DAY : Nat
  LIKES_RESET_TEST_SECONDS : Nat
  AUTH_PREVIEW_MODE : Bool
  ADMIN_UNLOCK_KEY : String
deriving Repr, DecidableEq

/-- `select(DailyLikeCount).where(user_id == u, day == d)` — the table is
unique on (user_id, day), so `find?` returns the row when present. -/
def findCounter (l : List DailyLikeCount) (u : String) (d : Nat) : Option DailyLikeCount :=
  l.find? (fun r => r.user_id == u && r.day == d)

/-- Committing a mutated counter row: replace the row with the same
(user_id, day) key. -/
def updateCounter (db : DB) (c : DailyLikeCount) : DB :=
  { db with daily_like_counts :=
      db.daily_like_counts.map fun r =>
        if r.user_id = c.user_id ∧ r.day = c.day then c else r }

/-- `select(Like).where(user_id == u, profile_id == p)`. -/
def findLike (l : List LikeRow) (u p : String) : Option LikeRow :=
  l.find? (fun r => r.user_id == u && r.profile_id == p)

/-- `session.get(Profile, profile_id)` — primary-key lookup. -/
def findProfile (l : List Profile) (pid : String) : Option Profile :=
  l.find? (fun r => r.id == pid)

/-- `select(Profile).where(owner_user_id == u)`. -/
def findProfileByOwner (l : List Profile) (u : String) : Option Profile :=
  l.find? (fun r => r.owner_user_id == u)

/-- `session.get(Thread, thread_id)` — primary-key lookup. -/
def findThread (l : List Thread) (tid : String) : Option Thread :=
  l.find? (fun r => r.id == tid)

/-- `select(Entitlement).where(user_id == u)`. -/
def findEntitlement (l : List Entitlement) (u : String) : Option Entitlement :=
  l.find? (fun r => r.user_id == u)

/-- Committing a mutated entitlement row: replace the row with the same user_id. -/
def updateEntitlement (db : DB) (e : Entitlement) : DB :=
  { db with entitlements :=
      db.entitlements.map (fun r => if r.user_id = e.user_id then e else r) }

/-- `select(ThreadUnlock).where(user_id == u, thread_id == t)`. -/
def findUnlock (l : List ThreadUnlock) (t u : String) : Option ThreadUnlock :=
  l.find? (fun r => r.thread_id == t && r.user_id == u)

/-- `_get_or_create_daily_like_counter` (main.py:1293-1309) in the sequential
case: no concurrent writer, so the insert commit succeeds and the
IntegrityError branch is not taken. -/
def _get_or_create_daily_like_counter (db : DB) (user_id : String) (day now : Nat) :
    DailyLikeCount × DB :=
  match findCounter db.daily_like_counts user_id day with
  | some row => (row, db)
  | none =>
      let row : DailyLikeCount :=
        { user_id := user_id, day := day, count := 0, updated_at := now,
          window_started_at := none }
      (row, { db with daily_like_counts := db.daily_like_counts ++ [row] })

/-- Result of `_get_likes_window`: the tuple
`(counter, likes_left, reset_at, window_type)` plus the store it left behind. -/
structure WindowResult where
  counter : DailyLikeCount
  likes_left : Nat
  reset_at : Nat
  window_type : String
  db : DB
deriving Repr, DecidableEq

/-- `_get_likes_window` (main.py:1312-1340).  In rolling (`test_seconds`) mode
the counter row for today is created if needed, `window_started_at` is set to
now when unset, and an expired window (`now >= reset_at`) resets the count to
zero and restarts the window at `now`.  In daily mode the reset instant is the
next UTC midnight.  `likes_left` is `max(0, FREE_LIKES_PER_DAY - count)`. -/
def _get_likes_window (cfg : Config) (db : DB) (user_id : String) (now : Nat) :
    WindowResult :=
  if 0 < cfg.LIKES_RESET_TEST_SECONDS then
    let today := dateOf now
    let p := _get_or_create_daily_like_counter db user_id today now
    let counter0 := p.1
    let started : Bool := counter0.window_started_at.isSome
    let counter1 :=
      if started then counter0
      else { counter0 with window_started_at := some now, updated_at := now }
    let db1 := if started then p.2 else updateCounter p.2 counter1
    let ws := counter1.window_started_at.getD now
    let reset_at := ws + cfg.LIKES_RESET_TEST_SECONDS
    if reset_at ≤ now then
      let counter2 :=
        { counter1 with count := 0, window_started_at := some now, updated_at := now }
      { counter := counter2,
        likes_left := cfg.FREE_LIKES_PER_DAY - counter2.count,
        reset_at := now + cfg.LIKES_RESET_TEST_SECONDS,
        window_type := "test_seconds",
        db := updateCounter db1 counter2 }
    else
      { counter := counter1,
        likes_left := cfg.FREE_LIKES_PER_DAY - counter1.count,
        reset_at := reset_at,
        window_type := "test_seconds",
        db := db1 }
  else
    let today := dateOf now
    let p := _get_or_create_daily_like_counter db user_id today now
    { counter := p.1,
      likes_left := cfg.FREE_LIKES_PER_DAY - p.1.count,
      reset_at := _next_utc_midnight now,
      window_type := "daily_utc",
      db := p.2 }

/-- An `HTTPException`, by status code: 400, 401, 402, 403, 404, 429, 500. -/
inductive HErr where
  | badRequest (detail : String)
  | unauthorized (detail : String)
  | paymentRequired (detail : String)
  | forbidden (detail : String)
  | notFound (detail : String)
  | tooManyRequests (detail : String)
  | internalError (detail : String)
deriving Repr, DecidableEq

/-- `_ensure_user` (main.py:1084-1093): strip the id, fail (400) when blank,
otherwise create the user row when absent.  `none` models the raised 400. -/
def _ensure_user (db : DB) (user_id : String) : Option (String × DB) :=
  let uid := (pyStrip user_id)
  if uid = "" then none
  else some (uid, if db.users.contains uid then db
                  else { db with users := db.users ++ [uid] })

/-- The 429 detail string of the `like` handler (main.py:2215-2217). -/
def likeLimitDetail (cfg : Config) (window_type : String) : String :=
  if window_type = "test_seconds" then
    "Limit reached (" ++ toString cfg.FREE_LIKES_PER_DAY ++ " likes). Resets in about "
      ++ toString cfg.LIKES_RESET_TEST_SECONDS ++ " seconds."
  else
    "Daily like limit reached (" ++ toString cfg.FREE_LIKES_PER_DAY
      ++ "/day). Try again tomorrow."

/-- Response of the `like` endpoint: the `ok` payload or the raised error. -/
inductive LikeOutcome where
  | ok (likesLeft : Nat) (resetsAtUTC : Nat)
  | err (e : HErr)
deriving Repr, DecidableEq

/-- The notification block of the `like` handler (main.py:2234-2245): queue a
"someone liked your profile" notification when the profile has an owner other
than the liker. -/
def addLikeNotification (db : DB) (recipient uid pid : String)
    (actor_profile : Option Profile) (now : Nat) : DB :=
  if recipient ≠ "" ∧ recipient ≠ uid then
    { db with notifications := db.notifications ++
        [{ user_id := recipient, type := "like",
           message := "Someone liked your profile.", created_at := now,
           actor_user_id := some uid, profile_id := some pid,
           actor_profile_id := actor_profile.map (fun p => p.id) }] }
  else db

/-- The `POST /likes` handler `like` (main.py:2200-2255).  `commitConflict`
models the final commit hitting a uniqueness conflict caused by a concurrent
request (IntegrityError at main.py:2249): the session rolls back to the state
the earlier `_get_likes_window` commits left, and the handler still answers
success, recomputing `likesLeft` from the rolled-back counter value. -/
def like (cfg : Config) (db : DB) (user_id profile_id : String) (now : Nat)
    (commitConflict : Bool) : LikeOutcome × DB :=
  match _ensure_user db user_id with
  | none => (.err (.badRequest ("user_id is required")), db)
  | some (uid, db) =>
    let pid := (pyStrip profile_id)
    if pid = "" then (.err (.badRequest ("profile_id is required")), db)
    else
      let w := _get_likes_window cfg db uid now
      match findLike w.db.likes uid pid with
      | some _ => (.ok w.likes_left w.reset_at, w.db)
      | none =>
        if cfg.FREE_LIKES_PER_DAY ≤ w.counter.count then
          (.err (.tooManyRequests (likeLimitDetail cfg w.window_type)), w.db)
        else
          match findProfile w.db.profiles pid with
          | none => (.err (.notFound ("Profile not found")), w.db)
          | some prof =>
            if prof.is_banned then (.err (.notFound ("Profile not found")), w.db)
            else
              let newLike : LikeRow :=
                { user_id := uid, profile_id := pid, created_at := now }
              let counterA :=
                { w.counter with count := w.counter.count + 1, updated_at := now }
              let counterB :=
                if 0 < cfg.LIKES_RESET_TEST_SECONDS ∧ counterA.window_started_at = none
                then { counterA with window_started_at := some now } else counterA
              let recipient := prof.owner_user_id
              let actor_profile := findProfileByOwner w.db.profiles uid
              let pending0 :=
                updateCounter { w.db with likes := w.db.likes ++ [newLike] } counterB
              let pending := addLikeNotification pending0 recipient uid pid actor_profile now
              if commitConflict then
                (.ok (cfg.FREE_LIKES_PER_DAY - w.counter.count) w.reset_at, w.db)
              else
                let w2 := _get_likes_window cfg pending uid now
                (.ok w2.likes_left w2.reset_at, w2.db)

/-- `_get_entitlement` (main.py:2266-2277), sequential case: the lazy-create
commit does not race, so the IntegrityError branch is not taken. -/
def _get_entitlement (db : DB) (user_id : String) (now : Nat) : Entitlement × DB :=
  match findEntitlement db.entitlements user_id with
  | some row => (row, db)
  | none =>
      let row : Entitlement :=
        { user_id := user_id, is_premium := false, updated_at := now }
      (row, { db with entitlements := db.entitlements ++ [row] })

/-- The `(allowed, is_premium, reason)` triple of `_can_message_thread`. -/
structure GateResult where
  allowed : Bool
  is_premium : Bool
  reason : String
deriving Repr, DecidableEq

/-- The paywall reason string (main.py:2296). -/
def lockedReason : String :=
  "Messaging is locked. Upgrade to Premium or pay $1.99 to unlock this chat."

/-- `_can_message_thread` (main.py:2280-2296): premium or an unlock row for
exactly this (thread, user) pair allows messaging. -/
def _can_message_thread (db : DB) (user_id thread_id : String) (now : Nat) :
    GateResult × DB :=
  let u := (pyStrip user_id)
  let t := (pyStrip thread_id)
  if u = "" then
    ({ allowed := false, is_premium := false, reason := "user_id is required" }, db)
  else if t = "" then
    ({ allowed := false, is_premium := false, reason := "thread_id is required" }, db)
  else
    let p := _get_entitlement db u now
    if p.1.is_premium then
      ({ allowed := true, is_premium := true, reason := "" }, p.2)
    else
      match findUnlock p.2.thread_unlocks t u with
      | some _ => ({ allowed := true, is_premium := false, reason := "" }, p.2)
      | none => ({ allowed := false, is_premium := false, reason := lockedReason }, p.2)

/-- `_ensure_thread_participant` (main.py:2299-2303): `none` models the raised
403; otherwise the other participant is returned. -/
def _ensure_thread_participant (thread : Thread) (user_id : String) : Option String :=
  if user_id ≠ thread.user_low ∧ user_id ≠ thread.user_high then none
  else some (if user_id = thread.user_low then thread.user_high else thread.user_low)

/-- Response of the `GET /messaging/access` endpoint. -/
inductive AccessOutcome where
  | ok (canMessage is_premium : Bool) (reason : String)
  | err (e : HErr)
deriving Repr, DecidableEq

/-- The `GET /messaging/access` handler `messaging_access` (main.py:2437-2451). -/
def messaging_access (db : DB) (user_id thread_id : String) (now : Nat) :
    AccessOutcome × DB :=
  match _ensure_user db user_id with
  | none => (.err (.badRequest ("user_id is required")), db)
  | some (uid, db) =>
    let t := (pyStrip thread_id)
    if t = "" then (.err (.badRequest ("thread_id is required")), db)
    else
      match findThread db.threads t with
      | none => (.err (.notFound ("Thread not found")), db)
      | some thread =>
        match _ensure_thread_participant thread uid with
        | none => (.err (.forbidden ("You are not a participant in this thread.")), db)
        | some _ =>
          let g := _can_message_thread db uid t now
          (.ok g.1.allowed g.1.is_premium g.1.reason, g.2)

/-- `_require_profile_photo_for_messaging` (main.py:2454-2467): `some e` models
the raised 403. -/
def _require_profile_photo_for_messaging (cfg : Config) (db : DB) (user_id : String) :
    Option HErr :=
  if cfg.AUTH_PREVIEW_MODE then none
  else
    match findProfileByOwner db.profiles user_id with
    | none => some (.forbidden ("photo_required"))
    | some p =>
      if p.is_banned then some (.forbidden ("banned"))
      else
        let photo1 := pyStrip (p.photo.getD "")
        let photo2 := pyStrip (p.photo2.getD "")
        if photo1 = "" ∧ photo2 = "" then some (.forbidden ("photo_required")) else none

/-- Response of the `POST /messages` endpoint. -/
inductive SendOutcome where
  | ok (m : MessageRow)
  | err (e : HErr)
deriving Repr, DecidableEq

/-- The `POST /messages` handler `send_message` (main.py:2492-2522). -/
def send_message (cfg : Config) (db : DB) (user_id thread_id body : String) (now : Nat) :
    SendOutcome × DB :=
  match _ensure_user db user_id with
  | none => (.err (.badRequest ("user_id is required")), db)
  | some (uid, db) =>
    let t := (pyStrip thread_id)
    let b := (pyStrip body)
    if t = "" then (.err (.badRequest ("thread_id is required")), db)
    else if b = "" then (.err (.badRequest ("Message body is required")), db)
    else
      match findThread db.threads t with
      | none => (.err (.notFound ("Thread not found")), db)
      | some thread =>
        match _ensure_thread_participant thread uid with
        | none => (.err (.forbidden ("You are not a participant in this thread.")), db)
        | some _ =>
          match _require_profile_photo_for_messaging cfg db uid with
          | some e => (.err e, db)
          | none =>
            let g := _can_message_thread db uid t now
            if g.1.allowed = false ∧ cfg.AUTH_PREVIEW_MODE = false then
              (.err (.paymentRequired
                (if g.1.reason ≠ "" then g.1.reason else "Messaging locked.")), g.2)
            else
              let m : MessageRow :=
                { thread_id := t, sender_user_id := uid, body := b, created_at := now }
              let db2 := { g.2 with messages := g.2.messages ++ [m] }
              let db3 := { db2 with threads := db2.threads.map fun th =>
                  if th.id = t then { th with updated_at := now } else th }
              (.ok m, db3)

/-- Response of the `POST /messaging/unlock` endpoint. -/
inductive UnlockOutcome where
  | okPremium (userId : String)
  | okUnlocked (userId threadId : String)
  | err (e : HErr)
deriving Repr, DecidableEq

/-- The `POST /messaging/unlock` handler `admin_unlock` (main.py:2525-2556).
Sequentially the guarded insert is reached only when no row exists, so its
commit succeeds (the IntegrityError branch there is for concurrent writers;
either way the handler answers unlocked). -/
def admin_unlock (cfg : Config) (db : DB) (user_id thread_id : String)
    (make_premium : Bool) (admin_key : String) (now : Nat) : UnlockOutcome × DB :=
  if cfg.ADMIN_UNLOCK_KEY = "" then
    (.err (.internalError ("Admin unlock is not configured (ADMIN_UNLOCK_KEY missing).")), db)
  else if (pyStrip admin_key) ≠ cfg.ADMIN_UNLOCK_KEY then
    (.err (.unauthorized ("Unauthorized (bad admin key).")), db)
  else
    match _ensure_user db user_id with
    | none => (.err (.badRequest ("user_id is required")), db)
    | some (uid, db) =>
      let t := (pyStrip thread_id)
      let p := _get_entitlement db uid now
      if make_premium then
        (.okPremium uid, updateEntitlement p.2 { p.1 with is_premium := true, updated_at := now })
      else if t = "" then
        (.err (.badRequest ("thread_id is required unless make_premium=true")), p.2)
      else
        match findUnlock p.2.thread_unlocks t uid with
        | some _ => (.okUnlocked uid t, p.2)
        | none =>
            (.okUnlocked uid t,
             { p.2 with thread_unlocks := p.2.thread_unlocks ++
                 [{ thread_id := t, user_id := uid, created_at := now, updated_at := now }] })

/-- Webhook response. -/
inductive WebhookOutcome where
  | success
  | ignored
  | err (e : HErr)
deriving Repr, DecidableEq

/-- The `checkout.session.completed` / `kind == "thread_unlock"` branch of
`stripe_webhook` (main.py:3164-3178), after signature verification: insert a
ThreadUnlock row and commit.  The commit raises IntegrityError exactly when a
row with the same (thread_id, user_id) key already exists (unique constraint
`uq_thread_user_unlock`); the session is rolled back and success is still
returned. -/
def stripe_webhook_thread_unlock (db : DB) (user_id thread_id : String) (now : Nat) :
    WebhookOutcome × DB :=
  let u := (pyStrip user_id)
  let t := (pyStrip thread_id)
  if u = "" ∨ t = "" then (.err (.badRequest ("Missing user_id or thread_id")), db)
  else
    let candidate := { db with thread_unlocks := db.thread_unlocks ++
        [{ thread_id := t, user_id := u, created_at := now, updated_at := now }] }
    if (findUnlock db.thread_unlocks t u).isSome then (.success, db)
    else (.success, candidate)

/-- The `kind == "premium"` branch of `stripe_webhook` (main.py:3180-3190),
with `user_id` the already-resolved id from metadata / client reference. -/
def stripe_webhook_premium (db : DB) (user_id : String) (now : Nat) :
    WebhookOutcome × DB :=
  let u := (pyStrip user_id)
  if u = "" then (.err (.badRequest ("Missing user_id for premium")), db)
  else
    let p := _get_entitlement db u now
    (.success, updateEntitlement p.2 { p.1 with is_premium := true, updated_at := now })

/-- `_get_or_create_daily_like_counter` (main.py:1293-1309) when the insert
commit races: the row was absent at the select, a concurrent request committed
the row `raced` (same key) in between, so our insert commit raises
IntegrityError; the session rolls back, discarding our row and leaving the
store as the concurrent writer left it, and the handler re-reads
(`scalar_one`, `none` modelling it raising) instead of surfacing an error. -/
def _get_or_create_daily_like_counter_raced (db : DB) (user_id : String) (day : Nat)
    (raced : DailyLikeCount) : Option (DailyLikeCount × DB) :=
  match findCounter db.daily_like_counts user_id day with
  | some row => some (row, db)
  | none =>
      let dbAfter := { db with daily_like_counts := db.daily_like_counts ++ [raced] }
      (findCounter dbAfter.daily_like_counts user_id day).map (fun row => (row, dbAfter))

/-- `_get_entitlement` (main.py:2266-2277) when the lazy-create commit races
with a concurrent request that committed the row `raced` for the same user:
IntegrityError, rollback, re-read (`scalar_one`, `none` modelling it raising). -/
def _get_entitlement_raced (db : DB) (user_id : String)
    (raced : Entitlement) : Option (Entitlement × DB) :=
  match findEntitlement db.entitlements user_id with
  | some row => some (row, db)
  | none =>
      let dbAfter := { db with entitlements := db.entitlements ++ [raced] }
      (findEntitlement dbAfter.entitlements user_id).map (fun row => (row, dbAfter))

/-! ### Lemmas about the row lookups and updates -/

theorem findCounter_key {l : List DailyLikeCount} {u : String} {d : Nat}
    {r : DailyLikeCount} (h : findCounter l u d = some r) :
    r.user_id = u ∧ r.day = d := by
  unfold findCounter at h
  simpa using List.find?_some h

theorem findCounter_mem {l : List DailyLikeCount} {u : String} {d : Nat}
    {r : DailyLikeCount} (h : findCounter l u d = some r) : r ∈ l := by
  unfold findCounter at h
  exact List.mem_of_find?_eq_some h

theorem findCounter_append (l₁ l₂ : List DailyLikeCount) (u : String) (d : Nat) :
    findCounter (l₁ ++ l₂) u d = (findCounter l₁ u d).or (findCounter l₂ u d) := by
  simp [findCounter, List.find?_append]

theorem findCounter_singleton {c : DailyLikeCount} {u : String} {d : Nat}
    (hu : c.user_id = u) (hd : c.day = d) : findCounter [c] u d = some c := by
  simp [findCounter, hu, hd]

theorem findCounter_map_replace (l : List DailyLikeCount) (c : DailyLikeCount)
    {u : String} {d : Nat} (hc : c.user_id = u) (hd : c.day = d) :
    findCounter (l.map fun r => if r.user_id = c.user_id ∧ r.day = c.day then c else r) u d
      = if (findCounter l u d).isSome then some c else none := by
  subst hc hd
  induction l with
  | nil => simp [findCounter]
  | cons x l ih =>
      unfold findCounter at ih ⊢
      by_cases hx : x.user_id = c.user_id ∧ x.day = c.day
      · rw [List.map_cons, if_pos hx]
        have h1 : (c.user_id == c.user_id && c.day == c.day) = true := by simp
        have h2 : (x.user_id == c.user_id && x.day == c.day) = true := by simp [hx.1, hx.2]
        simp only [List.find?_cons, h1, h2]
        simp
      · rw [List.map_cons, if_neg hx]
        have h2 : (x.user_id == c.user_id && x.day == c.day) = false := by simpa using hx
        simp only [List.find?_cons, h2]
        exact ih

theorem updateCounter_mem {db : DB} {c x : DailyLikeCount}
    (hx : x ∈ (updateCounter db c).daily_like_counts) :
    x = c ∨ x ∈ db.daily_like_counts := by
  simp only [updateCounter, List.mem_map] at hx
  obtain ⟨r, hr, hxr⟩ := hx
  by_cases h : r.user_id = c.user_id ∧ r.day = c.day
  · left; rw [← hxr, if_pos h]
  · right; rw [← hxr, if_neg h]; exact hr

theorem findEntitlement_key {l : List Entitlement} {u : String} {r : Entitlement}
    (h : findEntitlement l u = some r) : r.user_id = u := by
  unfold findEntitlement at h
  simpa using List.find?_some h

theorem findEntitlement_mem {l : List Entitlement} {u : String} {r : Entitlement}
    (h : findEntitlement l u = some r) : r ∈ l := by
  unfold findEntitlement at h
  exact List.mem_of_find?_eq_some h

theorem findEntitlement_append (l₁ l₂ : List Entitlement) (u : String) :
    findEntitlement (l₁ ++ l₂) u = (findEntitlement l₁ u).or (findEntitlement l₂ u) := by
  simp [findEntitlement, List.find?_append]

theorem findEntitlement_map_replace_ne (l : List Entitlement) (e : Entitlement)
    {u : String} (hne : e.user_id ≠ u) :
    findEntitlement (l.map fun r => if r.user_id = e.user_id then e else r) u
      = findEntitlement l u := by
  induction l with
  | nil => simp [findEntitlement]
  | cons x l ih =>
      unfold findEntitlement at ih ⊢
      by_cases hx : x.user_id = e.user_id
      · rw [List.map_cons, if_pos hx]
        have h1 : (e.user_id == u) = false := by simpa using hne
        have h2 : (x.user_id == u) = false := by rw [hx]; exact h1
        simp only [List.find?_cons, h1, h2]
        exact ih
      · rw [List.map_cons, if_neg hx]
        by_cases hxu : x.user_id = u
        · have h2 : (x.user_id == u) = true := by simp [hxu]
          simp only [List.find?_cons, h2]
        · have h2 : (x.user_id == u) = false := by simpa using hxu
          simp only [List.find?_cons, h2]
          exact ih

theorem findUnlock_key {l : List ThreadUnlock} {t u : String} {r : ThreadUnlock}
    (h : findUnlock l t u = some r) : r.thread_id = t ∧ r.user_id = u := by
  unfold findUnlock at h
  simpa using List.find?_some h

theorem findUnlock_mem {l : List ThreadUnlock} {t u : String} {r : ThreadUnlock}
    (h : findUnlock l t u = some r) : r ∈ l := by
  unfold findUnlock at h
  exact List.mem_of_find?_eq_some h

theorem findUnlock_append (l₁ l₂ : List ThreadUnlock) (t u : String) :
    findUnlock (l₁ ++ l₂) t u = (findUnlock l₁ t u).or (findUnlock l₂ t u) := by
  simp [findUnlock, List.find?_append]

theorem findUnlock_singleton {c : ThreadUnlock} {t u : String}
    (ht : c.thread_id = t) (hu : c.user_id = u) : findUnlock [c] t u = some c := by
  simp [findUnlock, ht, hu]

/-! ### Lemmas about counter creation and the window computation -/

theorem gocdlc_key (db : DB) (u : String) (d now : Nat) :
    (_get_or_create_daily_like_counter db u d now).1.user_id = u ∧
    (_get_or_create_daily_like_counter db u d now).1.day = d := by
  unfold _get_or_create_daily_like_counter
  cases h : findCounter db.daily_like_counts u d with
  | none => simp
  | some row => simpa using findCounter_key h

theorem gocdlc_find (db : DB) (u : String) (d now : Nat) :
    findCounter (_get_or_create_daily_like_counter db u d now).2.daily_like_counts u d
      = some (_get_or_create_daily_like_counter db u d now).1 := by
  unfold _get_or_create_daily_like_counter
  cases h : findCounter db.daily_like_counts u d with
  | none =>
      simp only []
      rw [findCounter_append, h]
      simp [findCounter_singleton rfl rfl, Option.or]
  | some row => simpa using h

theorem gocdlc_row_cases (db : DB) (u : String) (d now : Nat) :
    (_get_or_create_daily_like_counter db u d now).1 ∈ db.daily_like_counts ∨
    (_get_or_create_daily_like_counter db u d now).1.count = 0 := by
  unfold _get_or_create_daily_like_counter
  cases h : findCounter db.daily_like_counts u d with
  | none => simp
  | some row => simpa using Or.inl (findCounter_mem h)

theorem gocdlc_counters_cases (db : DB) (u : String) (d now : Nat) :
    ∀ c ∈ (_get_or_create_daily_like_counter db u d now).2.daily_like_counts,
      c ∈ db.daily_like_counts ∨ c.count = 0 := by
  unfold _get_or_create_daily_like_counter
  cases h : findCounter db.daily_like_counts u d with
  | none =>
      intro c hc
      simp only [] at hc
      rw [List.mem_append] at hc
      rcases hc with hc | hc
      · exact Or.inl hc
      · simp at hc; subst hc; simp
  | some row =>
      simp only []
      intro c hc
      exact Or.inl hc

theorem gocdlc_likes (db : DB) (u : String) (d now : Nat) :
    (_get_or_create_daily_like_counter db u d now).2.likes = db.likes := by
  unfold _get_or_create_daily_like_counter
  cases h : findCounter db.daily_like_counts u d <;> simp

theorem gocdlc_profiles (db : DB) (u : String) (d now : Nat) :
    (_get_or_create_daily_like_counter db u d now).2.profiles = db.profiles := by
  unfold _get_or_create_daily_like_counter
  cases h : findCounter db.daily_like_counts u d <;> simp

/-- `_get_likes_window` in daily mode is counter creation plus the fixed
next-midnight reset instant. -/
theorem glw_daily (cfg : Config) (db : DB) (u : String) (now : Nat)
    (hW : cfg.LIKES_RESET_TEST_SECONDS = 0) :
    _get_likes_window cfg db u now =
      { counter := (_get_or_create_daily_like_counter db u (dateOf now) now).1,
        likes_left := cfg.FREE_LIKES_PER_DAY
          - (_get_or_create_daily_like_counter db u (dateOf now) now).1.count,
        reset_at := _next_utc_midnight now,
        window_type := "daily_utc",
        db := (_get_or_create_daily_like_counter db u (dateOf now) now).2 } := by
  simp [_get_likes_window, hW]

/-- `_get_likes_window` in rolling mode, window already started and not yet
expired: nothing is written, the reset instant is window start plus the
configured seconds. -/
theorem glw_roll_live (cfg : Config) (db : DB) (u : String) (now : Nat)
    (hW : 0 < cfg.LIKES_RESET_TEST_SECONDS) {w : Nat}
    (hws : (_get_or_create_daily_like_counter db u (dateOf now) now).1.window_started_at
      = some w)
    (hlive : ¬ w + cfg.LIKES_RESET_TEST_SECONDS ≤ now) :
    _get_likes_window cfg db u now =
      { counter := (_get_or_create_daily_like_counter db u (dateOf now) now).1,
        likes_left := cfg.FREE_LIKES_PER_DAY
          - (_get_or_create_daily_like_counter db u (dateOf now) now).1.count,
        reset_at := w + cfg.LIKES_RESET_TEST_SECONDS,
        window_type := "test_seconds",
        db := (_get_or_create_daily_like_counter db u (dateOf now) now).2 } := by
  simp [_get_likes_window, hW, hws, hlive]

/-- `_get_likes_window` in rolling mode, window already started and expired:
the count is reset to zero and the window restarts at `now`. -/
theorem glw_roll_reset (cfg : Config) (db : DB) (u : String) (now : Nat)
    (hW : 0 < cfg.LIKES_RESET_TEST_SECONDS) {w : Nat}
    (hws : (_get_or_create_daily_like_counter db u (dateOf now) now).1.window_started_at
      = some w)
    (hexp : w + cfg.LIKES_RESET_TEST_SECONDS ≤ now) :
    _get_likes_window cfg db u now =
      { counter := { (_get_or_create_daily_like_counter db u (dateOf now) now).1 with
          count := 0, window_started_at := some now, updated_at := now },
        likes_left := cfg.FREE_LIKES_PER_DAY,
        reset_at := now + cfg.LIKES_RESET_TEST_SECONDS,
        window_type := "test_seconds",
        db := updateCounter (_get_or_create_daily_like_counter db u (dateOf now) now).2
          { (_get_or_create_daily_like_counter db u (dateOf now) now).1 with
            count := 0, window_started_at := some now, updated_at := now } } := by
  simp [_get_likes_window, hW, hws, hexp]

/-- `_get_likes_window` in rolling mode with no started window: the window is
started at `now` and no reset fires. -/
theorem glw_roll_fresh (cfg : Config) (db : DB) (u : String) (now : Nat)
    (hW : 0 < cfg.LIKES_RESET_TEST_SECONDS)
    (hws : (_get_or_create_daily_like_counter db u (dateOf now) now).1.window_started_at
      = none) :
    _get_likes_window cfg db u now =
      { counter := { (_get_or_create_daily_like_counter db u (dateOf now) now).1 with
          window_started_at := some now, updated_at := now },
        likes_left := cfg.FREE_LIKES_PER_DAY
          - (_get_or_create_daily_like_counter db u (dateOf now) now).1.count,
        reset_at := now + cfg.LIKES_RESET_TEST_SECONDS,
        window_type := "test_seconds",
        db := updateCounter (_get_or_create_daily_like_counter db u (dateOf now) now).2
          { (_get_or_create_daily_like_counter db u (dateOf now) now).1 with
            window_started_at := some now, updated_at := now } } := by
  have hnr : ¬ now + cfg.LIKES_RESET_TEST_SECONDS ≤ now := by omega
  simp [_get_likes_window, hW, hws, hnr]

/-- `_ensure_user` on a non-blank id succeeds and only touches the users table. -/
theorem ensure_user_some (db : DB) {user_id : String} (h : (pyStrip user_id) ≠ "") :
    ∃ db2, _ensure_user db user_id = some ((pyStrip user_id), db2) ∧
      db2.profiles = db.profiles ∧ db2.likes = db.likes ∧
      db2.daily_like_counts = db.daily_like_counts ∧
      db2.notifications = db.notifications ∧ db2.threads = db.threads ∧
      db2.messages = db.messages ∧ db2.entitlements = db.entitlements ∧
      db2.thread_unlocks = db.thread_unlocks := by
  by_cases hc : db.users.contains (pyStrip user_id) = true
  · refine ⟨db, ?_, rfl, rfl, rfl, rfl, rfl, rfl, rfl, rfl⟩
    simp only [_ensure_user]
    rw [if_neg h, if_pos hc]
  · refine ⟨{ db with users := db.users ++ [(pyStrip user_id)] }, ?_, rfl, rfl, rfl, rfl, rfl, rfl,
      rfl, rfl⟩
    simp only [_ensure_user]
    rw [if_neg h, if_neg hc]

theorem findEntitlement_singleton_ne {r : Entitlement} {u : String}
    (h : r.user_id ≠ u) : findEntitlement [r] u = none := by
  simp [findEntitlement, h]

theorem gent_key (db : DB) (u : String) (now : Nat) :
    (_get_entitlement db u now).1.user_id = u := by
  unfold _get_entitlement
  cases h : findEntitlement db.entitlements u with
  | none => simp
  | some row => simpa using findEntitlement_key h

theorem gent_unlocks (db : DB) (u : String) (now : Nat) :
    (_get_entitlement db u now).2.thread_unlocks = db.thread_unlocks := by
  unfold _get_entitlement
  cases h : findEntitlement db.entitlements u <;> simp

theorem gent_premium_of_found {db : DB} {u : String} {now : Nat}
    (h : (findEntitlement db.entitlements u).isSome = false) :
    (_get_entitlement db u now).1.is_premium = false := by
  unfold _get_entitlement
  cases h2 : findEntitlement db.entitlements u with
  | none => simp
  | some row => rw [h2] at h; simp at h

theorem gent_found {db : DB} {u : String} {now : Nat} {e : Entitlement}
    (h : findEntitlement db.entitlements u = some e) :
    _get_entitlement db u now = (e, db) := by
  unfold _get_entitlement
  rw [h]

theorem gent_fresh {db : DB} {u : String} {now : Nat}
    (h : findEntitlement db.entitlements u = none) :
    _get_entitlement db u now =
      ({ user_id := u, is_premium := false, updated_at := now },
       { db with entitlements := db.entitlements
           ++ [{ user_id := u, is_premium := false, updated_at := now }] }) := by
  unfold _get_entitlement
  rw [h]

/-- The gate's verdict depends only on the entitlement lookup for the user and
on the unlock table. -/
theorem can_message_congr (db db' : DB) (user_id thread_id : String) (now now' : Nat)
    (hent : findEntitlement db'.entitlements (pyStrip user_id)
      = findEntitlement db.entitlements (pyStrip user_id))
    (hunl : db'.thread_unlocks = db.thread_unlocks) :
    (_can_message_thread db' user_id thread_id now').1
      = (_can_message_thread db user_id thread_id now).1 := by
  unfold _can_message_thread
  by_cases hu : (pyStrip user_id) = ""
  · simp [hu]
  · by_cases ht : (pyStrip thread_id) = ""
    · simp [hu, ht]
    · rw [if_neg hu, if_neg hu, if_neg ht, if_neg ht]
      cases h : findEntitlement db.entitlements (pyStrip user_id) with
      | some e =>
          rw [gent_found h, gent_found (hent.trans h)]
          by_cases hp : e.is_premium = true
          · simp [hp]
          · have hp' : e.is_premium = false := by simpa using hp
            simp only [hp', hunl]
            cases findUnlock db.thread_unlocks (pyStrip thread_id) (pyStrip user_id) <;> simp
      | none =>
          rw [gent_fresh h, gent_fresh (hent.trans h)]
          simp only [hunl]
          cases findUnlock db.thread_unlocks (pyStrip thread_id) (pyStrip user_id) <;> simp

/-- Granting premium to `v` leaves every other user's entitlement lookup and
the unlock table unchanged. -/
theorem stripe_premium_frame (db : DB) (v : String) (now : Nat) {u : String}
    (hne : (pyStrip v) ≠ u) :
    findEntitlement (stripe_webhook_premium db v now).2.entitlements u
      = findEntitlement db.entitlements u ∧
    (stripe_webhook_premium db v now).2.thread_unlocks = db.thread_unlocks := by
  unfold stripe_webhook_premium
  by_cases hv : (pyStrip v) = ""
  · simp [hv]
  · rw [if_neg hv]
    cases h : findEntitlement db.entitlements (pyStrip v) with
    | some e =>
        rw [gent_found h]
        have hkey : e.user_id = (pyStrip v) := findEntitlement_key h
        constructor
        · simp only [updateEntitlement]
          have := findEntitlement_map_replace_ne db.entitlements
            { e with is_premium := true, updated_at := now } (u := u) (by simpa [hkey] using hne)
          simpa using this
        · simp [updateEntitlement]
    | none =>
        rw [gent_fresh h]
        constructor
        · simp only [updateEntitlement]
          have := findEntitlement_map_replace_ne
            (db.entitlements ++ [{ user_id := (pyStrip v), is_premium := false, updated_at := now }])
            { user_id := (pyStrip v), is_premium := true, updated_at := now } (u := u)
            (by simpa using hne)
          simp only [] at this ⊢
          rw [this, findEntitlement_append, findEntitlement_singleton_ne (by simpa using hne)]
          cases findEntitlement db.entitlements u <;> simp [Option.or]
        · simp [updateEntitlement]

/-- C2: `_can_message_thread(u, t)` allows messaging exactly when `u`'s
entitlement row has `is_premium = true` or a ThreadUnlock row exists for the
pair `(t, u)`; and granting premium to a different user `v` does not change
the verdict for `u`.  (The "returns false for any other user with neither
condition" sentence is the right-to-left contrapositive of the iff.) -/
theorem C2_can_message_iff (db : DB) (user_id thread_id v : String) (now now2 now3 : Nat)
    (hu : (pyStrip user_id) ≠ "") (ht : (pyStrip thread_id) ≠ "")
    (hv : (pyStrip v) ≠ (pyStrip user_id)) :
    ((_can_message_thread db user_id thread_id now).1.allowed = true ↔
      ((∃ e, findEntitlement db.entitlements (pyStrip user_id) = some e ∧ e.is_premium = true) ∨
       (findUnlock db.thread_unlocks (pyStrip thread_id) (pyStrip user_id)).isSome = true))
    ∧ (_can_message_thread (stripe_webhook_premium db v now2).2 user_id thread_id now3).1.allowed
        = (_can_message_thread db user_id thread_id now).1.allowed := by
  constructor
  · unfold _can_message_thread
    rw [if_neg hu, if_neg ht]
    cases h : findEntitlement db.entitlements (pyStrip user_id) with
    | some e =>
        rw [gent_found h]
        by_cases hp : e.is_premium = true
        · simp [hp, h]
        · have hp' : e.is_premium = false := by simpa using hp
          simp only [hp', if_false, Bool.false_eq_true]
          cases hl : findUnlock db.thread_unlocks (pyStrip thread_id) (pyStrip user_id) with
          | some r => simp [hl, h, hp']
          | none => simp [hl, h, hp']
    | none =>
        rw [gent_fresh h]
        simp only []
        cases hl : findUnlock db.thread_unlocks (pyStrip thread_id) (pyStrip user_id) with
        | some r => simp [hl, h]
        | none => simp [hl, h]
  · have hfr := stripe_premium_frame db v now2 (u := (pyStrip user_id)) hv
    exact congrArg GateResult.allowed
      (can_message_congr db (stripe_webhook_premium db v now2).2 user_id thread_id now now3
        hfr.1 hfr.2)

/-- Witness for C2 at a concrete store: user "u", thread "t", one unlock row
for ("t","u"), premium granted to "v". -/
theorem C2_witness :
    let db : DB := { DB.empty with
      thread_unlocks := [{ thread_id := "t", user_id := "u", created_at := 0, updated_at := 0 }] }
    ((_can_message_thread db "u" "t" 5).1.allowed = true ↔
      ((∃ e, findEntitlement db.entitlements "u" = some e ∧ e.is_premium = true) ∨
       (findUnlock db.thread_unlocks "t" "u").isSome = true))
    ∧ (_can_message_thread (stripe_webhook_premium db "v" 6).2 "u" "t" 7).1.allowed
        = (_can_message_thread db "u" "t" 5).1.allowed :=
  C2_can_message_iff _ "u" "t" "v" 5 6 7 (by decide) (by decide) (by decide)

/-- C7: In daily-UTC mode the `reset_at` returned by `_get_likes_window` lies
exactly on a UTC midnight boundary (it is a multiple of the seconds in a day)
and is strictly later than the current time, for every store, user and call
time. -/
theorem C7_daily_reset_at_midnight (cfg : Config) (db : DB) (u : String) (now : Nat)
    (hW : cfg.LIKES_RESET_TEST_SECONDS = 0) :
    (_get_likes_window cfg db u now).reset_at % secondsPerDay = 0 ∧
    now < (_get_likes_window cfg db u now).reset_at := by
  rw [glw_daily cfg db u now hW]
  simp only [_next_utc_midnight, _utc_midnight_of_day, dateOf, secondsPerDay]
  omega

/-- Witness for C7 at a concrete call. -/
theorem C7_witness :
    (_get_likes_window ⟨5, 0, false, "k"⟩ DB.empty "u" 1000).reset_at % secondsPerDay = 0 ∧
    1000 < (_get_likes_window ⟨5, 0, false, "k"⟩ DB.empty "u" 1000).reset_at :=
  C7_daily_reset_at_midnight ⟨5, 0, false, "k"⟩ DB.empty "u" 1000 rfl

/-! ### Unlock idempotence (C6) -/

/-- Number of ThreadUnlock rows for one (thread, user) pair. -/
def countUnlocks (l : List ThreadUnlock) (t u : String) : Nat :=
  (l.filter (fun r => r.thread_id == t && r.user_id == u)).length

theorem findUnlock_eq_none_of_count_zero {l : List ThreadUnlock} {t u : String}
    (h : countUnlocks l t u = 0) : findUnlock l t u = none := by
  unfold countUnlocks at h
  rw [List.length_eq_zero] at h
  unfold findUnlock
  rw [List.find?_eq_none]
  intro x hx hpx
  have hmem : x ∈ l.filter (fun r => r.thread_id == t && r.user_id == u) :=
    List.mem_filter.mpr ⟨hx, hpx⟩
  rw [h] at hmem
  simp at hmem

theorem countUnlocks_append (l₁ l₂ : List ThreadUnlock) (t u : String) :
    countUnlocks (l₁ ++ l₂) t u = countUnlocks l₁ t u + countUnlocks l₂ t u := by
  simp [countUnlocks, List.filter_append]

theorem countUnlocks_singleton {c : ThreadUnlock} {t u : String}
    (ht : c.thread_id = t) (hu : c.user_id = u) : countUnlocks [c] t u = 1 := by
  simp [countUnlocks, ht, hu]

/-- The gate allows messaging whenever an unlock row exists for the pair. -/
theorem can_message_allowed_of_unlock (db : DB) (user_id thread_id : String) (now : Nat)
    (hu : (pyStrip user_id) ≠ "") (ht : (pyStrip thread_id) ≠ "")
    (hl : (findUnlock db.thread_unlocks (pyStrip thread_id) (pyStrip user_id)).isSome) :
    (_can_message_thread db user_id thread_id now).1.allowed = true := by
  unfold _can_message_thread
  rw [if_neg hu, if_neg ht]
  simp only []
  cases hp : (_get_entitlement db (pyStrip user_id) now).1.is_premium
  · rw [gent_unlocks]
    cases hfu : findUnlock db.thread_unlocks (pyStrip thread_id) (pyStrip user_id) with
    | some r => simp [hp]
    | none => rw [hfu] at hl; simp at hl
  · simp [hp]

/-- C6: Granting a thread unlock twice for the same (thread, user) pair is
idempotent, both through the admin endpoint (which pre-checks for the row) and
through the payment webhook (whose blind re-insert hits the uniqueness
conflict, caught and treated as already-granted): the second grant reports
success, exactly one ThreadUnlock row exists for the pair afterwards, and the
gate still allows messaging for that pair. -/
theorem C6_unlock_idempotent (cfg : Config) (db : DB) (user_id thread_id admin_key : String)
    (n1 n2 n3 n4 n5 n6 : Nat)
    (hk : cfg.ADMIN_UNLOCK_KEY ≠ "") (hk2 : (pyStrip admin_key) = cfg.ADMIN_UNLOCK_KEY)
    (hu : (pyStrip user_id) ≠ "") (ht : (pyStrip thread_id) ≠ "")
    (hz : countUnlocks db.thread_unlocks (pyStrip thread_id) (pyStrip user_id) = 0) :
    ((admin_unlock cfg db user_id thread_id false admin_key n1).1
        = .okUnlocked (pyStrip user_id) (pyStrip thread_id)
      ∧ (admin_unlock cfg (admin_unlock cfg db user_id thread_id false admin_key n1).2
          user_id thread_id false admin_key n2).1
        = .okUnlocked (pyStrip user_id) (pyStrip thread_id)
      ∧ countUnlocks (admin_unlock cfg (admin_unlock cfg db user_id thread_id false admin_key n1).2
          user_id thread_id false admin_key n2).2.thread_unlocks
          (pyStrip thread_id) (pyStrip user_id) = 1
      ∧ (_can_message_thread (admin_unlock cfg (admin_unlock cfg db user_id thread_id false
          admin_key n1).2 user_id thread_id false admin_key n2).2
          user_id thread_id n3).1.allowed = true)
    ∧ ((stripe_webhook_thread_unlock db user_id thread_id n4).1 = .success
      ∧ (stripe_webhook_thread_unlock (stripe_webhook_thread_unlock db user_id thread_id n4).2
          user_id thread_id n5).1 = .success
      ∧ countUnlocks (stripe_webhook_thread_unlock (stripe_webhook_thread_unlock db user_id
          thread_id n4).2 user_id thread_id n5).2.thread_unlocks
          (pyStrip thread_id) (pyStrip user_id) = 1
      ∧ (_can_message_thread (stripe_webhook_thread_unlock (stripe_webhook_thread_unlock db
          user_id thread_id n4).2 user_id thread_id n5).2
          user_id thread_id n6).1.allowed = true) := by
  have hnone := findUnlock_eq_none_of_count_zero hz
  constructor
  · -- admin endpoint path
    obtain ⟨dbA, heA, _, _, _, _, _, _, _, hunlA⟩ := ensure_user_some db hu
    have h1 : admin_unlock cfg db user_id thread_id false admin_key n1
        = (.okUnlocked (pyStrip user_id) (pyStrip thread_id),
           { (_get_entitlement dbA (pyStrip user_id) n1).2 with thread_unlocks :=
               (_get_entitlement dbA (pyStrip user_id) n1).2.thread_unlocks ++
                 [{ thread_id := (pyStrip thread_id), user_id := (pyStrip user_id),
                    created_at := n1, updated_at := n1 }] }) := by
      unfold admin_unlock
      rw [if_neg (by simpa using hk), if_neg (by simp [hk2]), heA]
      simp only [Bool.false_eq_true, if_false, if_neg ht]
      rw [gent_unlocks, hunlA, hnone]
    set db1 := (admin_unlock cfg db user_id thread_id false admin_key n1).2 with hdb1
    have hdb1unl : db1.thread_unlocks
        = db.thread_unlocks ++
          [{ thread_id := (pyStrip thread_id), user_id := (pyStrip user_id),
             created_at := n1, updated_at := n1 }] := by
      rw [hdb1, h1]
      simp [gent_unlocks, hunlA]
    have hfound1 : findUnlock db1.thread_unlocks (pyStrip thread_id) (pyStrip user_id)
        = some { thread_id := (pyStrip thread_id), user_id := (pyStrip user_id),
                 created_at := n1, updated_at := n1 } := by
      rw [hdb1unl, findUnlock_append, hnone, findUnlock_singleton rfl rfl]
      simp [Option.or]
    obtain ⟨dbB, heB, _, _, _, _, _, _, _, hunlB⟩ := ensure_user_some db1 hu
    have h2 : admin_unlock cfg db1 user_id thread_id false admin_key n2
        = (.okUnlocked (pyStrip user_id) (pyStrip thread_id),
           (_get_entitlement dbB (pyStrip user_id) n2).2) := by
      unfold admin_unlock
      rw [if_neg (by simpa using hk), if_neg (by simp [hk2]), heB]
      simp only [Bool.false_eq_true, if_false, if_neg ht]
      rw [gent_unlocks, hunlB, hfound1]
    refine ⟨by rw [h1], by rw [h2], ?_, ?_⟩
    · rw [h2]
      simp only [gent_unlocks, hunlB, hdb1unl]
      rw [countUnlocks_append, hz, countUnlocks_singleton rfl rfl]
    · apply can_message_allowed_of_unlock _ _ _ _ hu ht
      rw [h2]
      simp only [gent_unlocks, hunlB]
      rw [hfound1]
      simp
  · -- webhook path
    have h1 : stripe_webhook_thread_unlock db user_id thread_id n4
        = (.success,
           { db with thread_unlocks := db.thread_unlocks ++
               [{ thread_id := (pyStrip thread_id), user_id := (pyStrip user_id),
                  created_at := n4, updated_at := n4 }] }) := by
      unfold stripe_webhook_thread_unlock
      rw [if_neg (by simp [hu, ht]), if_neg (by simp [hnone])]
    have hfound1 : findUnlock (db.thread_unlocks ++
        [{ thread_id := (pyStrip thread_id), user_id := (pyStrip user_id),
           created_at := n4, updated_at := n4 }]) (pyStrip thread_id) (pyStrip user_id)
        = some { thread_id := (pyStrip thread_id), user_id := (pyStrip user_id),
                 created_at := n4, updated_at := n4 } := by
      rw [findUnlock_append, hnone, findUnlock_singleton rfl rfl]
      simp [Option.or]
    have h2 : stripe_webhook_thread_unlock (stripe_webhook_thread_unlock db user_id thread_id n4).2
        user_id thread_id n5
        = (.success, (stripe_webhook_thread_unlock db user_id thread_id n4).2) := by
      rw [h1]
      unfold stripe_webhook_thread_unlock
      rw [if_neg (by simp [hu, ht])]
      simp only []
      rw [if_pos (by simp [hfound1])]
    refine ⟨by rw [h1], by rw [h2], ?_, ?_⟩
    · rw [h2, h1]
      simp only []
      rw [countUnlocks_append, hz, countUnlocks_singleton rfl rfl]
    · apply can_message_allowed_of_unlock _ _ _ _ hu ht
      rw [h2, h1]
      simp only []
      rw [hfound1]
      simp

/-- Witness for C6 at a concrete store. -/
theorem C6_witness :
    let cfg : Config := ⟨5, 0, false, "k"⟩
    ((admin_unlock cfg DB.empty "u" "t" false "k" 1).1 = .okUnlocked "u" "t"
      ∧ (admin_unlock cfg (admin_unlock cfg DB.empty "u" "t" false "k" 1).2
          "u" "t" false "k" 2).1 = .okUnlocked "u" "t"
      ∧ countUnlocks (admin_unlock cfg (admin_unlock cfg DB.empty "u" "t" false "k" 1).2
          "u" "t" false "k" 2).2.thread_unlocks "t" "u" = 1
      ∧ (_can_message_thread (admin_unlock cfg (admin_unlock cfg DB.empty "u" "t" false
          "k" 1).2 "u" "t" false "k" 2).2 "u" "t" 3).1.allowed = true)
    ∧ ((stripe_webhook_thread_unlock DB.empty "u" "t" 4).1 = .success
      ∧ (stripe_webhook_thread_unlock (stripe_webhook_thread_unlock DB.empty "u" "t" 4).2
          "u" "t" 5).1 = .success
      ∧ countUnlocks (stripe_webhook_thread_unlock (stripe_webhook_thread_unlock DB.empty "u"
          "t" 4).2 "u" "t" 5).2.thread_unlocks "t" "u" = 1
      ∧ (_can_message_thread (stripe_webhook_thread_unlock (stripe_webhook_thread_unlock
          DB.empty "u" "t" 4).2 "u" "t" 5).2 "u" "t" 6).1.allowed = true) :=
  C6_unlock_idempotent ⟨5, 0, false, "k"⟩ DB.empty "u" "t" "k" 1 2 3 4 5 6
    (by decide) (by decide) (by decide) (by decide) (by decide)

/-! ### Non-participant access (C10) -/

/-- C10: A user who is neither of a thread's two participants gets a 403
"not a participant" error from both the access endpoint and the send-message
endpoint, whatever entitlement or unlock rows exist for them (the store is
arbitrary, so in particular they may be premium or hold a ThreadUnlock for the
thread), and no message is persisted. -/
theorem C10_non_participant_forbidden (cfg : Config) (db : DB)
    (user_id thread_id body : String) (now : Nat) (thread : Thread)
    (hu : (pyStrip user_id) ≠ "") (ht0 : (pyStrip thread_id) ≠ "")
    (hb : (pyStrip body) ≠ "")
    (hthread : findThread db.threads (pyStrip thread_id) = some thread)
    (hlow : (pyStrip user_id) ≠ thread.user_low)
    (hhigh : (pyStrip user_id) ≠ thread.user_high) :
    (messaging_access db user_id thread_id now).1
      = .err (.forbidden ("You are not a participant in this thread."))
    ∧ (send_message cfg db user_id thread_id body now).1
      = .err (.forbidden ("You are not a participant in this thread."))
    ∧ (send_message cfg db user_id thread_id body now).2.messages = db.messages := by
  obtain ⟨db2, he, _, _, _, _, hthr, hmsg, _, _⟩ := ensure_user_some db hu
  have hpart : _ensure_thread_participant thread (pyStrip user_id) = none := by
    unfold _ensure_thread_participant
    rw [if_pos ⟨hlow, hhigh⟩]
  refine ⟨?_, ?_, ?_⟩
  · unfold messaging_access
    rw [he]
    simp only [if_neg ht0]
    rw [hthr, hthread]
    simp only []
    rw [hpart]
  · unfold send_message
    rw [he]
    simp only [if_neg ht0, if_neg hb]
    rw [hthr, hthread]
    simp only []
    rw [hpart]
  · unfold send_message
    rw [he]
    simp only [if_neg ht0, if_neg hb]
    rw [hthr, hthread]
    simp only []
    rw [hpart]
    exact hmsg

/-- Witness for C10: premium user "x" holding an unlock for thread "t" whose
participants are "a" and "b". -/
theorem C10_witness :
    let db : DB := { DB.empty with
      threads := [{ id := "t", user_low := "a", user_high := "b", created_at := 0,
                    updated_at := 0 }],
      entitlements := [{ user_id := "x", is_premium := true, updated_at := 0 }],
      thread_unlocks := [{ thread_id := "t", user_id := "x", created_at := 0,
                           updated_at := 0 }] }
    (messaging_access db "x" "t" 9).1
      = .err (.forbidden ("You are not a participant in this thread."))
    ∧ (send_message ⟨5, 0, false, "k"⟩ db "x" "t" "hello" 9).1
      = .err (.forbidden ("You are not a participant in this thread."))
    ∧ (send_message ⟨5, 0, false, "k"⟩ db "x" "t" "hello" 9).2.messages = db.messages :=
  C10_non_participant_forbidden ⟨5, 0, false, "k"⟩ _ "x" "t" "hello" 9
    { id := "t", user_low := "a", user_high := "b", created_at := 0, updated_at := 0 }
    (by decide) (by decide) (by decide) (by decide) (by decide) (by decide)

/-! ### Rolling-window reset behaviour (C4) -/

theorem gocdlc_found {db : DB} {u : String} {d now : Nat} {row : DailyLikeCount}
    (h : findCounter db.daily_like_counts u d = some row) :
    _get_or_create_daily_like_counter db u d now = (row, db) := by
  unfold _get_or_create_daily_like_counter
  rw [h]

theorem findCounter_updateCounter_self {db : DB} {c : DailyLikeCount} {u : String} {d : Nat}
    (hc : c.user_id = u) (hd : c.day = d)
    (hs : (findCounter db.daily_like_counts u d).isSome = true) :
    findCounter (updateCounter db c).daily_like_counts u d = some c := by
  unfold updateCounter
  simp only []
  rw [findCounter_map_replace db.daily_like_counts c hc hd, if_pos hs]

/-- Rolling-mode postcondition of `_get_likes_window`: the stored counter for
today is the returned one, its window start is recorded, and `reset_at` is the
window start plus the configured seconds. -/
theorem glw_roll_post (cfg : Config) (db : DB) (u : String) (now : Nat)
    (hW : 0 < cfg.LIKES_RESET_TEST_SECONDS) :
    ∃ ws, (_get_likes_window cfg db u now).counter.window_started_at = some ws
      ∧ (_get_likes_window cfg db u now).reset_at = ws + cfg.LIKES_RESET_TEST_SECONDS
      ∧ findCounter (_get_likes_window cfg db u now).db.daily_like_counts u (dateOf now)
        = some (_get_likes_window cfg db u now).counter := by
  have hkey := gocdlc_key db u (dateOf now) now
  have hfind := gocdlc_find db u (dateOf now) now
  cases hws : (_get_or_create_daily_like_counter db u (dateOf now) now).1.window_started_at with
  | some w =>
      by_cases hexp : w + cfg.LIKES_RESET_TEST_SECONDS ≤ now
      · rw [glw_roll_reset cfg db u now hW hws hexp]
        exact ⟨now, rfl, rfl,
          findCounter_updateCounter_self hkey.1 hkey.2 (by rw [hfind]; rfl)⟩
      · rw [glw_roll_live cfg db u now hW hws hexp]
        exact ⟨w, hws, rfl, hfind⟩
  | none =>
      rw [glw_roll_fresh cfg db u now hW hws]
      exact ⟨now, rfl, rfl,
        findCounter_updateCounter_self hkey.1 hkey.2 (by rw [hfind]; rfl)⟩

/-- C4 (amended): in rolling-window mode with window `W`, when `get_window` at
`t0` reports the window as `[t0, t0 + W)` with the count at the limit, a call
at `t0 + W + ε` (ε > 0, same UTC day) resets the counter, reports
`remaining = limit`, and reports `reset_at = (t0 + W + ε) + W`: the new window
restarts at the time of the second call, not at the previous window's end. -/
theorem C4_rolling_second_call (cfg : Config) (db : DB) (u : String) (t0 ε : Nat)
    (hW : 0 < cfg.LIKES_RESET_TEST_SECONDS) (_hε : 0 < ε)
    (hday : dateOf (t0 + cfg.LIKES_RESET_TEST_SECONDS + ε) = dateOf t0)
    (_hcount : (_get_likes_window cfg db u t0).counter.count = cfg.FREE_LIKES_PER_DAY)
    (hreset : (_get_likes_window cfg db u t0).reset_at = t0 + cfg.LIKES_RESET_TEST_SECONDS) :
    (_get_likes_window cfg (_get_likes_window cfg db u t0).db u
        (t0 + cfg.LIKES_RESET_TEST_SECONDS + ε)).likes_left = cfg.FREE_LIKES_PER_DAY
    ∧ (_get_likes_window cfg (_get_likes_window cfg db u t0).db u
        (t0 + cfg.LIKES_RESET_TEST_SECONDS + ε)).reset_at
      = (t0 + cfg.LIKES_RESET_TEST_SECONDS + ε) + cfg.LIKES_RESET_TEST_SECONDS := by
  obtain ⟨ws, hws, hr, hf⟩ := glw_roll_post cfg db u t0 hW
  have hws0 : ws = t0 := by
    rw [hreset] at hr
    omega
  have hws' : (_get_likes_window cfg db u t0).counter.window_started_at = some t0 := by
    rw [hws, hws0]
  have hfind2 : findCounter (_get_likes_window cfg db u t0).db.daily_like_counts u
      (dateOf (t0 + cfg.LIKES_RESET_TEST_SECONDS + ε))
      = some (_get_likes_window cfg db u t0).counter := by
    rw [hday]; exact hf
  have hgoc : _get_or_create_daily_like_counter (_get_likes_window cfg db u t0).db u
      (dateOf (t0 + cfg.LIKES_RESET_TEST_SECONDS + ε))
      (t0 + cfg.LIKES_RESET_TEST_SECONDS + ε)
      = ((_get_likes_window cfg db u t0).counter, (_get_likes_window cfg db u t0).db) :=
    gocdlc_found hfind2
  have hws2 : (_get_or_create_daily_like_counter (_get_likes_window cfg db u t0).db u
      (dateOf (t0 + cfg.LIKES_RESET_TEST_SECONDS + ε))
      (t0 + cfg.LIKES_RESET_TEST_SECONDS + ε)).1.window_started_at
      = some t0 := by rw [hgoc]; exact hws'
  have hexp : t0 + cfg.LIKES_RESET_TEST_SECONDS ≤ t0 + cfg.LIKES_RESET_TEST_SECONDS + ε :=
    Nat.le_add_right _ _
  rw [glw_roll_reset cfg (_get_likes_window cfg db u t0).db u
      (t0 + cfg.LIKES_RESET_TEST_SECONDS + ε) hW hws2 hexp]
  exact ⟨rfl, rfl⟩

/-- Witness for the amended C4 at concrete numbers (W = 10, t0 = 0, ε = 3). -/
theorem C4_rolling_second_call_witness :
    let cfg : Config := ⟨5, 10, false, "k"⟩
    let db0 : DB := { DB.empty with
      daily_like_counts := [{ user_id := "u", day := 0, count := 5, updated_at := 0,
                              window_started_at := some 0 }] }
    (_get_likes_window cfg (_get_likes_window cfg db0 "u" 0).db "u" 13).likes_left = 5
    ∧ (_get_likes_window cfg (_get_likes_window cfg db0 "u" 0).db "u" 13).reset_at = 13 + 10 :=
  C4_rolling_second_call ⟨5, 10, false, "k"⟩ _ "u" 0 3
    (by decide) (by decide) (by decide) (by decide) (by decide)

/-- C4 counterexample to the claim as stated: with W = 10 and the window
started at t0 = 0 (first call reports reset_at = t0 + W = 10 with the count at
the limit), the call at t0 + W + ε = 13 reports remaining = limit but
reset_at = 23 = (t0 + W + ε) + W, not (t0 + W) + W = 20. -/
theorem C4_counterexample :
    let cfg : Config := ⟨5, 10, false, "k"⟩
    let db0 : DB := { DB.empty with
      daily_like_counts := [{ user_id := "u", day := 0, count := 5, updated_at := 0,
                              window_started_at := some 0 }] }
    (_get_likes_window cfg db0 "u" 0).counter.count = 5
    ∧ (_get_likes_window cfg db0 "u" 0).reset_at = 0 + 10
    ∧ (_get_likes_window cfg (_get_likes_window cfg db0 "u" 0).db "u" 13).likes_left = 5
    ∧ (_get_likes_window cfg (_get_likes_window cfg db0 "u" 0).db "u" 13).reset_at = 23
    ∧ (_get_likes_window cfg (_get_likes_window cfg db0 "u" 0).db "u" 13).reset_at
      ≠ (0 + 10) + 10 := by
  decide

/-! ### Frame and congruence lemmas for the window computation -/

theorem glw_frame (cfg : Config) (db : DB) (u : String) (now : Nat) :
    (_get_likes_window cfg db u now).db.likes = db.likes
    ∧ (_get_likes_window cfg db u now).db.profiles = db.profiles := by
  by_cases hW : 0 < cfg.LIKES_RESET_TEST_SECONDS
  · cases hws : (_get_or_create_daily_like_counter db u (dateOf now) now).1.window_started_at with
    | some w =>
        by_cases hexp : w + cfg.LIKES_RESET_TEST_SECONDS ≤ now
        · rw [glw_roll_reset cfg db u now hW hws hexp]
          constructor <;> simp [updateCounter, gocdlc_likes, gocdlc_profiles]
        · rw [glw_roll_live cfg db u now hW hws hexp]
          exact ⟨gocdlc_likes db u (dateOf now) now, gocdlc_profiles db u (dateOf now) now⟩
    | none =>
        rw [glw_roll_fresh cfg db u now hW hws]
        constructor <;> simp [updateCounter, gocdlc_likes, gocdlc_profiles]
  · rw [glw_daily cfg db u now (by omega)]
    exact ⟨gocdlc_likes db u (dateOf now) now, gocdlc_profiles db u (dateOf now) now⟩

theorem glw_find (cfg : Config) (db : DB) (u : String) (now : Nat) :
    findCounter (_get_likes_window cfg db u now).db.daily_like_counts u (dateOf now)
      = some (_get_likes_window cfg db u now).counter := by
  by_cases hW : 0 < cfg.LIKES_RESET_TEST_SECONDS
  · obtain ⟨ws, _, _, hf⟩ := glw_roll_post cfg db u now hW
    exact hf
  · rw [glw_daily cfg db u now (by omega)]
    exact gocdlc_find db u (dateOf now) now

theorem gocdlc_congr {db db' : DB} (u : String) (d now : Nat)
    (h : db'.daily_like_counts = db.daily_like_counts) :
    (_get_or_create_daily_like_counter db' u d now).1
      = (_get_or_create_daily_like_counter db u d now).1
    ∧ (_get_or_create_daily_like_counter db' u d now).2.daily_like_counts
      = (_get_or_create_daily_like_counter db u d now).2.daily_like_counts := by
  unfold _get_or_create_daily_like_counter
  rw [h]
  cases findCounter db.daily_like_counts u d <;> simp [h]

/-- The window computation reads and writes only the daily counter table. -/
theorem glw_counters_congr (cfg : Config) {db db' : DB} (u : String) (now : Nat)
    (h : db'.daily_like_counts = db.daily_like_counts) :
    (_get_likes_window cfg db' u now).counter = (_get_likes_window cfg db u now).counter
    ∧ (_get_likes_window cfg db' u now).likes_left
      = (_get_likes_window cfg db u now).likes_left
    ∧ (_get_likes_window cfg db' u now).reset_at = (_get_likes_window cfg db u now).reset_at
    ∧ (_get_likes_window cfg db' u now).window_type
      = (_get_likes_window cfg db u now).window_type
    ∧ (_get_likes_window cfg db' u now).db.daily_like_counts
      = (_get_likes_window cfg db u now).db.daily_like_counts := by
  obtain ⟨h1, h2⟩ := gocdlc_congr u (dateOf now) now h
  by_cases hW : 0 < cfg.LIKES_RESET_TEST_SECONDS
  · cases hws : (_get_or_create_daily_like_counter db u (dateOf now) now).1.window_started_at with
    | some w =>
        have hws' : (_get_or_create_daily_like_counter db' u (dateOf now) now).1.window_started_at
            = some w := by rw [h1, hws]
        by_cases hexp : w + cfg.LIKES_RESET_TEST_SECONDS ≤ now
        · rw [glw_roll_reset cfg db u now hW hws hexp, glw_roll_reset cfg db' u now hW hws' hexp]
          refine ⟨by rw [h1], rfl, rfl, rfl, ?_⟩
          simp only [updateCounter, h1, h2]
        · rw [glw_roll_live cfg db u now hW hws hexp, glw_roll_live cfg db' u now hW hws' hexp]
          exact ⟨h1, by rw [h1], rfl, rfl, h2⟩
    | none =>
        have hws' : (_get_or_create_daily_like_counter db' u (dateOf now) now).1.window_started_at
            = none := by rw [h1, hws]
        rw [glw_roll_fresh cfg db u now hW hws, glw_roll_fresh cfg db' u now hW hws']
        refine ⟨by rw [h1], by rw [h1], rfl, rfl, ?_⟩
        simp only [updateCounter, h1, h2]
  · rw [glw_daily cfg db u now (by omega), glw_daily cfg db' u now (by omega)]
    exact ⟨h1, by rw [h1], rfl, rfl, h2⟩

/-! ### Liking a missing or banned profile (C8) -/

/-- C8 counterexample to the claim as stated: the quota gate runs before the
profile-existence check, so a user whose quota is exhausted gets the 429 quota
outcome — not the 404 "not found" outcome — when liking a profile that does
not exist.  Here the store has no profile at all and the counter at the limit. -/
theorem C8_counterexample :
    let cfg : Config := ⟨5, 0, false, "k"⟩
    let db : DB := { DB.empty with
      daily_like_counts := [{ user_id := "u", day := 0, count := 5, updated_at := 0,
                              window_started_at := none }] }
    findProfile db.profiles "missing" = none
    ∧ (like cfg db "u" "missing" 100 false).1
      = .err (.tooManyRequests (likeLimitDetail cfg "daily_utc"))
    ∧ (like cfg db "u" "missing" 100 false).1 ≠ .err (.notFound ("Profile not found")) := by
  decide

/-- C8 (amended): provided the user's quota is not exhausted at this attempt
and no prior LikeRecord exists for the pair, a like aimed at a nonexistent or
moderation-hidden (banned) profile fails with the distinct 404 "Profile not
found" outcome, writes no LikeRecord, and leaves the quota counter exactly as
the window recomputation alone would (no quota consumed). -/
theorem C8_like_missing_profile (cfg : Config) (db : DB) (user_id profile_id : String)
    (now : Nat) (conflict : Bool)
    (hu : (pyStrip user_id) ≠ "") (hp : (pyStrip profile_id) ≠ "")
    (hnolike : findLike db.likes (pyStrip user_id) (pyStrip profile_id) = none)
    (hquota : (_get_likes_window cfg db (pyStrip user_id) now).counter.count
      < cfg.FREE_LIKES_PER_DAY)
    (hprof : ∀ p, findProfile db.profiles (pyStrip profile_id) = some p → p.is_banned = true) :
    (like cfg db user_id profile_id now conflict).1 = .err (.notFound ("Profile not found"))
    ∧ (like cfg db user_id profile_id now conflict).2.likes = db.likes
    ∧ findCounter (like cfg db user_id profile_id now conflict).2.daily_like_counts
        (pyStrip user_id) (dateOf now)
      = some (_get_likes_window cfg db (pyStrip user_id) now).counter := by
  obtain ⟨db2, he, hprofs, hlikes, hdlc, _, _, _, _, _⟩ := ensure_user_some db hu
  obtain ⟨hcc, _, _, _, hcdlc⟩ := glw_counters_congr cfg (pyStrip user_id) now hdlc
  have hwlikes := (glw_frame cfg db2 (pyStrip user_id) now).1
  have hwprofiles := (glw_frame cfg db2 (pyStrip user_id) now).2
  have hwfind := glw_find cfg db2 (pyStrip user_id) now
  unfold like
  rw [he]
  simp only [if_neg hp]
  rw [hwlikes, hlikes, hnolike]
  simp only []
  rw [if_neg (by rw [hcc]; omega)]
  rw [hwprofiles, hprofs]
  cases hfp : findProfile db.profiles (pyStrip profile_id) with
  | none =>
      simp only []
      refine ⟨?_, ?_, ?_⟩
      · simp
      · rw [hwlikes, hlikes]
      · rw [hwfind, hcc]
  | some p =>
      have hb := hprof p hfp
      simp only []
      rw [if_pos hb]
      refine ⟨?_, ?_, ?_⟩
      · simp
      · rw [hwlikes, hlikes]
      · rw [hwfind, hcc]

/-- Witness for the amended C8: fresh user, no profiles in the store. -/
theorem C8_like_missing_profile_witness :
    let cfg : Config := ⟨5, 0, false, "k"⟩
    (like cfg DB.empty "u" "missing" 100 false).1 = .err (.notFound ("Profile not found"))
    ∧ (like cfg DB.empty "u" "missing" 100 false).2.likes = DB.empty.likes
    ∧ findCounter (like cfg DB.empty "u" "missing" 100 false).2.daily_like_counts "u"
        (dateOf 100)
      = some (_get_likes_window cfg DB.empty "u" 100).counter :=
  C8_like_missing_profile ⟨5, 0, false, "k"⟩ DB.empty "u" "missing" 100 false
    (by decide) (by decide) (by decide) (by decide) (by decide)

/-! ### Send-message gating (C5) -/

theorem dropWhile_idem (p : Char → Bool) (l : List Char) :
    (l.dropWhile p).dropWhile p = l.dropWhile p := by
  induction l with
  | nil => simp
  | cons x l ih =>
      by_cases h : p x = true
      · simp [List.dropWhile_cons, h, ih]
      · simp [List.dropWhile_cons, h]

theorem dropWhile_eq_self_of_head (p : Char → Bool) (l : List Char)
    (h : ∀ x, l.head? = some x → p x = false) :
    l.dropWhile p = l := by
  cases l with
  | nil => rfl
  | cons x r =>
      have := h x rfl
      simp [List.dropWhile_cons, this]

theorem pyStrip_head (s : String) :
    ∀ x, (pyStrip s).data.head? = some x → Char.isWhitespace x = false := by
  intro x hx
  have hx' : ((((s.data.dropWhile Char.isWhitespace).reverse.dropWhile
      Char.isWhitespace)).reverse).head? = some x := hx
  rw [List.head?_reverse] at hx'
  obtain ⟨pre, hpre⟩ := List.dropWhile_suffix
    (l := (s.data.dropWhile Char.isWhitespace).reverse) Char.isWhitespace
  have h1 : ((s.data.dropWhile Char.isWhitespace).reverse).getLast? = some x := by
    conv_lhs => rw [← hpre]
    rw [List.getLast?_append, hx']
    rfl
  have h2 : (s.data.dropWhile Char.isWhitespace).head? = some x := by
    rw [← List.getLast?_reverse]
    exact h1
  have h3 := List.head?_dropWhile_not Char.isWhitespace s.data
  rw [h2] at h3
  exact h3

/-- Python `strip` is idempotent, so a handler re-stripping an already stripped
id is the identity. -/
theorem pyStrip_idem (s : String) : pyStrip (pyStrip s) = pyStrip s := by
  have h1 : (pyStrip s).data.dropWhile Char.isWhitespace = (pyStrip s).data :=
    dropWhile_eq_self_of_head _ _ (pyStrip_head s)
  show (⟨(((pyStrip s).data.dropWhile Char.isWhitespace).reverse.dropWhile
      Char.isWhitespace).reverse⟩ : String) = pyStrip s
  rw [h1]
  have h2 : (pyStrip s).data.reverse.dropWhile Char.isWhitespace
      = (pyStrip s).data.reverse := by
    have hrr : (pyStrip s).data.reverse
        = ((s.data.dropWhile Char.isWhitespace).reverse).dropWhile Char.isWhitespace := by
      show ((((s.data.dropWhile Char.isWhitespace).reverse).dropWhile
        Char.isWhitespace).reverse).reverse = _
      rw [List.reverse_reverse]
    rw [hrr]
    exact dropWhile_idem _ _
  rw [h2, List.reverse_reverse]

/-- The gate strips its arguments itself, so passing pre-stripped ids (as the
endpoint handlers do) changes nothing. -/
theorem cmt_strip_args (db : DB) (user_id thread_id : String) (now : Nat) :
    _can_message_thread db (pyStrip user_id) (pyStrip thread_id) now
      = _can_message_thread db user_id thread_id now := by
  unfold _can_message_thread
  rw [pyStrip_idem, pyStrip_idem]

theorem photo_congr (cfg : Config) {db db' : DB} (u : String)
    (h : db'.profiles = db.profiles) :
    _require_profile_photo_for_messaging cfg db' u
      = _require_profile_photo_for_messaging cfg db u := by
  unfold _require_profile_photo_for_messaging
  rw [h]

theorem gent_messages (db : DB) (u : String) (now : Nat) :
    (_get_entitlement db u now).2.messages = db.messages := by
  unfold _get_entitlement
  cases h : findEntitlement db.entitlements u <;> simp

theorem gent_threads (db : DB) (u : String) (now : Nat) :
    (_get_entitlement db u now).2.threads = db.threads := by
  unfold _get_entitlement
  cases h : findEntitlement db.entitlements u <;> simp

/-- The gate's resulting store is either the input store or the store after the
lazy entitlement creation. -/
theorem cmt_db_cases (db : DB) (user_id thread_id : String) (now : Nat) :
    (_can_message_thread db user_id thread_id now).2 = db
    ∨ (_can_message_thread db user_id thread_id now).2
      = (_get_entitlement db (pyStrip user_id) now).2 := by
  unfold _can_message_thread
  by_cases hu : (pyStrip user_id) = ""
  · simp [hu]
  · by_cases ht : (pyStrip thread_id) = ""
    · simp [hu, ht]
    · rw [if_neg hu, if_neg ht]
      simp only []
      right
      by_cases hp : (_get_entitlement db (pyStrip user_id) now).1.is_premium = true
      · rw [if_pos hp]
      · rw [if_neg hp]
        cases findUnlock (_get_entitlement db (pyStrip user_id) now).2.thread_unlocks
          (pyStrip thread_id) (pyStrip user_id) <;> rfl

theorem cmt_messages (db : DB) (user_id thread_id : String) (now : Nat) :
    (_can_message_thread db user_id thread_id now).2.messages = db.messages := by
  rcases cmt_db_cases db user_id thread_id now with h | h
  · rw [h]
  · rw [h, gent_messages]

/-- When the gate denies a request with well-formed ids, the verdict is exactly
the locked triple with the paywall reason. -/
theorem cmt_denied_shape (db : DB) (user_id thread_id : String) (now : Nat)
    (hu : (pyStrip user_id) ≠ "") (ht : (pyStrip thread_id) ≠ "")
    (hfalse : (_can_message_thread db user_id thread_id now).1.allowed = false) :
    (_can_message_thread db user_id thread_id now).1
      = { allowed := false, is_premium := false, reason := lockedReason } := by
  unfold _can_message_thread at hfalse ⊢
  rw [if_neg hu, if_neg ht] at hfalse ⊢
  simp only [] at hfalse ⊢
  by_cases hp : (_get_entitlement db (pyStrip user_id) now).1.is_premium = true
  · rw [if_pos hp] at hfalse
    simp at hfalse
  · rw [if_neg hp] at hfalse ⊢
    cases hl : findUnlock (_get_entitlement db (pyStrip user_id) now).2.thread_unlocks
        (pyStrip thread_id) (pyStrip user_id) with
    | some r => rw [hl] at hfalse; simp at hfalse
    | none => rfl

/-- C5 counterexample to the claim as stated: with auth-preview mode enabled
(the environment default), `send_message` persists the message even though
`can_message` returns `false`, so a send attempt denied by the gate is not
refused. -/
theorem C5_counterexample :
    let cfg : Config := ⟨5, 0, true, "k"⟩
    let db : DB := { DB.empty with
      threads := [{ id := "t", user_low := "u", user_high := "b", created_at := 0,
                    updated_at := 0 }] }
    (_can_message_thread db "u" "t" 3).1.allowed = false
    ∧ (send_message cfg db "u" "t" "hi" 3).1
      = .ok { thread_id := "t", sender_user_id := "u", body := "hi", created_at := 3 }
    ∧ (send_message cfg db "u" "t" "hi" 3).2.messages
      = [{ thread_id := "t", sender_user_id := "u", body := "hi", created_at := 3 }] := by
  decide

/-- C5 (amended): with auth-preview mode disabled, the messaging gate is
evaluated against the store as it is at this send attempt, and it decides
persistence: when every check before the gate passes and `can_message` is
false the request fails with 402 carrying the locked reason and no Message row
is written; and conversely a Message row is written only when `can_message` on
the current store is true. -/
theorem C5_send_message_gate (cfg : Config) (db : DB) (user_id thread_id body : String)
    (now : Nat) (hpreview : cfg.AUTH_PREVIEW_MODE = false) :
    (∀ thread, (pyStrip user_id) ≠ "" → (pyStrip thread_id) ≠ "" → (pyStrip body) ≠ "" →
      findThread db.threads (pyStrip thread_id) = some thread →
      _ensure_thread_participant thread (pyStrip user_id) ≠ none →
      _require_profile_photo_for_messaging cfg db (pyStrip user_id) = none →
      (_can_message_thread db user_id thread_id now).1.allowed = false →
      (send_message cfg db user_id thread_id body now).1
        = .err (.paymentRequired lockedReason)
      ∧ (send_message cfg db user_id thread_id body now).2.messages = db.messages)
    ∧ ((send_message cfg db user_id thread_id body now).2.messages ≠ db.messages →
      (_can_message_thread db user_id thread_id now).1.allowed = true) := by
  constructor
  · intro thread hu ht hb hthread hpart hphoto hfalse
    obtain ⟨db2, he, hprofs, _, hdlc, _, hthr, hmsg, hent, hunl⟩ :=
      ensure_user_some db hu
    obtain ⟨other, hpart2⟩ := Option.ne_none_iff_exists'.mp hpart
    have hcongr := can_message_congr db db2 user_id thread_id now now
      (by rw [hent]) hunl
    have hfalse2 : (_can_message_thread db2 user_id thread_id now).1.allowed = false := by
      rw [hcongr, hfalse]
    have hshape := cmt_denied_shape db2 user_id thread_id now hu ht hfalse2
    unfold send_message
    rw [he]
    simp only [if_neg ht, if_neg hb]
    rw [hthr, hthread]
    simp only []
    rw [hpart2]
    simp only []
    rw [photo_congr cfg (pyStrip user_id) hprofs, hphoto]
    simp only []
    rw [cmt_strip_args db2 user_id thread_id now]
    rw [if_pos ⟨by rw [hshape], hpreview⟩]
    constructor
    · rw [hshape]
      simp [lockedReason]
    · rw [cmt_messages, hmsg]
  · intro hgrow
    by_cases hu : (pyStrip user_id) = ""
    · exfalso
      apply hgrow
      unfold send_message _ensure_user
      rw [if_pos hu]
    · obtain ⟨db2, he, hprofs, _, hdlc, _, hthr, hmsg, hent, hunl⟩ :=
        ensure_user_some db hu
      have hcongr := can_message_congr db db2 user_id thread_id now now
        (by rw [hent]) hunl
      unfold send_message at hgrow
      rw [he] at hgrow
      simp only [] at hgrow
      by_cases ht : (pyStrip thread_id) = ""
      · exfalso; apply hgrow; rw [if_pos ht]; exact hmsg
      · rw [if_neg ht] at hgrow
        by_cases hb : (pyStrip body) = ""
        · exfalso; apply hgrow; rw [if_pos hb]; exact hmsg
        · rw [if_neg hb] at hgrow
          cases hthread : findThread db2.threads (pyStrip thread_id) with
          | none => exfalso; apply hgrow; rw [hthread]; exact hmsg
          | some thread =>
              rw [hthread] at hgrow
              simp only [] at hgrow
              cases hpart : _ensure_thread_participant thread (pyStrip user_id) with
              | none => exfalso; apply hgrow; rw [hpart]; exact hmsg
              | some other =>
                  rw [hpart] at hgrow
                  simp only [] at hgrow
                  cases hphoto : _require_profile_photo_for_messaging cfg db2
                      (pyStrip user_id) with
                  | some e => exfalso; apply hgrow; rw [hphoto]; exact hmsg
                  | none =>
                      rw [hphoto] at hgrow
                      simp only [] at hgrow
                      rw [cmt_strip_args db2 user_id thread_id now] at hgrow
                      by_cases hallow : (_can_message_thread db2 user_id thread_id now).1.allowed
                          = false
                      · exfalso
                        apply hgrow
                        rw [if_pos ⟨hallow, hpreview⟩]
                        rw [cmt_messages, hmsg]
                      · rw [← hcongr]
                        cases hval : (_can_message_thread db2 user_id thread_id now).1.allowed
                        · exact absurd hval hallow
                        · rfl

/-- Witness for the amended C5: thread ("u","b"), sender "u" with a photo,
preview off, no premium and no unlock: the gate denies, 402, nothing written. -/
theorem C5_send_message_gate_witness :
    let cfg : Config := ⟨5, 0, false, "k"⟩
    let db : DB := { DB.empty with
      profiles := [{ id := "p", owner_user_id := "u", photo := some "x", photo2 := none,
                     is_banned := false }],
      threads := [{ id := "t", user_low := "u", user_high := "b", created_at := 0,
                    updated_at := 0 }] }
    (∀ thread, ("u" : String) ≠ "" → ("t" : String) ≠ "" → ("hi" : String) ≠ "" →
      findThread db.threads "t" = some thread →
      _ensure_thread_participant thread "u" ≠ none →
      _require_profile_photo_for_messaging cfg db "u" = none →
      (_can_message_thread db "u" "t" 3).1.allowed = false →
      (send_message cfg db "u" "t" "hi" 3).1 = .err (.paymentRequired lockedReason)
      ∧ (send_message cfg db "u" "t" "hi" 3).2.messages = db.messages)
    ∧ ((send_message cfg db "u" "t" "hi" 3).2.messages ≠ db.messages →
      (_can_message_thread db "u" "t" 3).1.allowed = true) := by
  have h := C5_send_message_gate ⟨5, 0, false, "k"⟩
    { DB.empty with
      profiles := [{ id := "p", owner_user_id := "u", photo := some "x", photo2 := none,
                     is_banned := false }],
      threads := [{ id := "t", user_low := "u", user_high := "b", created_at := 0,
                    updated_at := 0 }] }
    "u" "t" "hi" 3 rfl
  exact h

/-! ### Uniqueness-conflict recovery (C9) -/

/-- C9: uniqueness-constraint conflicts are absorbed inside the operations:
(a) when the like handler's final commit hits a conflict (a concurrent
duplicate insert), it still answers success with the rolled-back remaining
quota, persists no LikeRecord of its own and consumes no quota;
(b) a raced daily-counter insert is recovered by re-reading the concurrently
committed row, with no error;
(c) a raced entitlement insert likewise;
(d) the webhook's blind unlock re-insert whose commit conflicts (the row
already exists) rolls back and still reports success, leaving the store as it
was. -/
theorem C9_conflict_recovery (cfg : Config) (db : DB) (user_id profile_id : String)
    (now : Nat) (prof : Profile)
    (hu : (pyStrip user_id) ≠ "") (hp : (pyStrip profile_id) ≠ "")
    (hnolike : findLike db.likes (pyStrip user_id) (pyStrip profile_id) = none)
    (hquota : (_get_likes_window cfg db (pyStrip user_id) now).counter.count
      < cfg.FREE_LIKES_PER_DAY)
    (hprofile : findProfile db.profiles (pyStrip profile_id) = some prof)
    (hbanned : prof.is_banned = false)
    (dbB : DB) (uB : String) (dB : Nat) (racedB : DailyLikeCount)
    (habsentB : findCounter dbB.daily_like_counts uB dB = none)
    (hkeyB : racedB.user_id = uB ∧ racedB.day = dB)
    (dbC : DB) (uC : String) (racedC : Entitlement)
    (habsentC : findEntitlement dbC.entitlements uC = none)
    (hkeyC : racedC.user_id = uC)
    (dbD : DB) (userD threadD : String) (nowD : Nat)
    (huD : (pyStrip userD) ≠ "") (htD : (pyStrip threadD) ≠ "")
    (hlD : (findUnlock dbD.thread_unlocks (pyStrip threadD) (pyStrip userD)).isSome = true) :
    ((like cfg db user_id profile_id now true).1
        = .ok (cfg.FREE_LIKES_PER_DAY
            - (_get_likes_window cfg db (pyStrip user_id) now).counter.count)
          (_get_likes_window cfg db (pyStrip user_id) now).reset_at
      ∧ (like cfg db user_id profile_id now true).2.likes = db.likes
      ∧ findCounter (like cfg db user_id profile_id now true).2.daily_like_counts
          (pyStrip user_id) (dateOf now)
        = some (_get_likes_window cfg db (pyStrip user_id) now).counter)
    ∧ _get_or_create_daily_like_counter_raced dbB uB dB racedB
      = some (racedB, { dbB with daily_like_counts := dbB.daily_like_counts ++ [racedB] })
    ∧ _get_entitlement_raced dbC uC racedC
      = some (racedC, { dbC with entitlements := dbC.entitlements ++ [racedC] })
    ∧ stripe_webhook_thread_unlock dbD userD threadD nowD = (.success, dbD) := by
  refine ⟨?_, ?_, ?_, ?_⟩
  · obtain ⟨db2, he, hprofs, hlikes, hdlc, _, _, _, _, _⟩ := ensure_user_some db hu
    obtain ⟨hcc, _, hcr, _, _⟩ := glw_counters_congr cfg (pyStrip user_id) now hdlc
    have hwlikes := (glw_frame cfg db2 (pyStrip user_id) now).1
    have hwprofiles := (glw_frame cfg db2 (pyStrip user_id) now).2
    have hwfind := glw_find cfg db2 (pyStrip user_id) now
    unfold like
    rw [he]
    simp only [if_neg hp]
    rw [hwlikes, hlikes, hnolike]
    simp only []
    rw [if_neg (by rw [hcc]; omega)]
    rw [hwprofiles, hprofs, hprofile]
    simp only []
    rw [if_neg (by simp [hbanned])]
    rw [if_pos trivial]
    refine ⟨?_, ?_, ?_⟩
    · rw [hcc, hcr]
    · rw [hwlikes, hlikes]
    · rw [hwfind, hcc]
  · unfold _get_or_create_daily_like_counter_raced
    rw [habsentB]
    simp only []
    rw [findCounter_append, habsentB, findCounter_singleton hkeyB.1 hkeyB.2]
    rfl
  · unfold _get_entitlement_raced
    rw [habsentC]
    simp only []
    rw [findEntitlement_append, habsentC]
    have : findEntitlement [racedC] uC = some racedC := by
      simp [findEntitlement, hkeyC]
    rw [this]
    rfl
  · unfold stripe_webhook_thread_unlock
    rw [if_neg (by simp [huD, htD])]
    simp only []
    rw [if_pos hlD]

/-- Witness for C9 at a concrete store: a real profile to like with the final
commit conflicting, an empty counter table raced by a concurrent insert, an
empty entitlement table raced likewise, and a pre-existing unlock row hit by
the webhook re-insert. -/
theorem C9_witness :
    let cfg : Config := ⟨5, 0, false, "k"⟩
    let db : DB := { DB.empty with
      profiles := [{ id := "p1", owner_user_id := "o", photo := none, photo2 := none,
                     is_banned := false }],
      thread_unlocks := [{ thread_id := "t", user_id := "u", created_at := 0,
                           updated_at := 0 }] }
    ((like cfg db "u" "p1" 50 true).1
        = .ok (5 - (_get_likes_window cfg db "u" 50).counter.count)
          (_get_likes_window cfg db "u" 50).reset_at
      ∧ (like cfg db "u" "p1" 50 true).2.likes = db.likes
      ∧ findCounter (like cfg db "u" "p1" 50 true).2.daily_like_counts "u" (dateOf 50)
        = some (_get_likes_window cfg db "u" 50).counter)
    ∧ _get_or_create_daily_like_counter_raced db "u" 0 ⟨"u", 0, 3, 11, none⟩
      = some (⟨"u", 0, 3, 11, none⟩,
        { db with daily_like_counts := db.daily_like_counts ++ [⟨"u", 0, 3, 11, none⟩] })
    ∧ _get_entitlement_raced db "u" ⟨"u", true, 7⟩
      = some (⟨"u", true, 7⟩, { db with entitlements := db.entitlements ++ [⟨"u", true, 7⟩] })
    ∧ stripe_webhook_thread_unlock db "u" "t" 60 = (.success, db) :=
  C9_conflict_recovery ⟨5, 0, false, "k"⟩ _ "u" "p1" 50
    { id := "p1", owner_user_id := "o", photo := none, photo2 := none, is_banned := false }
    (by decide) (by decide) (by decide) (by decide) (by decide) (by decide)
    _ "u" 0 ⟨"u", 0, 3, 11, none⟩ (by decide) (by decide)
    _ "u" ⟨"u", true, 7⟩ (by decide) (by decide)
    _ "u" "t" 60 (by decide) (by decide) (by decide)

/-! ### Double-like idempotence (C3) -/

/-- Number of Like rows for one (user, profile) pair. -/
def countLikes (l : List LikeRow) (u p : String) : Nat :=
  (l.filter (fun r => r.user_id == u && r.profile_id == p)).length

/-- Stored count of the user's counter row for a day (0 when absent). -/
def countOf (db : DB) (u : String) (d : Nat) : Nat :=
  ((findCounter db.daily_like_counts u d).map DailyLikeCount.count).getD 0

theorem countLikes_append (l₁ l₂ : List LikeRow) (u p : String) :
    countLikes (l₁ ++ l₂) u p = countLikes l₁ u p + countLikes l₂ u p := by
  simp [countLikes, List.filter_append]

theorem countLikes_singleton {c : LikeRow} {u p : String}
    (hu : c.user_id = u) (hp : c.profile_id = p) : countLikes [c] u p = 1 := by
  simp [countLikes, hu, hp]

theorem countLikes_zero_of_find_none {l : List LikeRow} {u p : String}
    (h : findLike l u p = none) : countLikes l u p = 0 := by
  unfold findLike at h
  unfold countLikes
  rw [List.length_eq_zero, List.filter_eq_nil_iff]
  intro x hx
  exact List.find?_eq_none.mp h x hx

theorem findLike_append (l₁ l₂ : List LikeRow) (u p : String) :
    findLike (l₁ ++ l₂) u p = (findLike l₁ u p).or (findLike l₂ u p) := by
  simp [findLike, List.find?_append]

theorem findLike_singleton {c : LikeRow} {u p : String}
    (hu : c.user_id = u) (hp : c.profile_id = p) : findLike [c] u p = some c := by
  simp [findLike, hu, hp]

/-- The counter returned by the window computation is keyed by the user and
the current UTC day. -/
theorem glw_key (cfg : Config) (db : DB) (u : String) (now : Nat) :
    (_get_likes_window cfg db u now).counter.user_id = u
    ∧ (_get_likes_window cfg db u now).counter.day = dateOf now := by
  have hkey := gocdlc_key db u (dateOf now) now
  by_cases hW : 0 < cfg.LIKES_RESET_TEST_SECONDS
  · cases hws : (_get_or_create_daily_like_counter db u (dateOf now) now).1.window_started_at with
    | some w =>
        by_cases hexp : w + cfg.LIKES_RESET_TEST_SECONDS ≤ now
        · rw [glw_roll_reset cfg db u now hW hws hexp]
          exact hkey
        · rw [glw_roll_live cfg db u now hW hws hexp]
          exact hkey
    | none =>
        rw [glw_roll_fresh cfg db u now hW hws]
        exact hkey
  · rw [glw_daily cfg db u now (by omega)]
    exact hkey

/-- Daily-mode window computation when the counter row already exists: pure
read, store unchanged. -/
theorem glw_daily_found (cfg : Config) (db : DB) (u : String) (now : Nat)
    (hW : cfg.LIKES_RESET_TEST_SECONDS = 0) {row : DailyLikeCount}
    (hfound : findCounter db.daily_like_counts u (dateOf now) = some row) :
    _get_likes_window cfg db u now =
      { counter := row, likes_left := cfg.FREE_LIKES_PER_DAY - row.count,
        reset_at := _next_utc_midnight now, window_type := "daily_utc", db := db } := by
  rw [glw_daily cfg db u now hW, gocdlc_found hfound]

/-- A repeat like for a pair that already has a LikeRecord is a success no-op:
it reports the current window, writes no LikeRecord and consumes no quota —
whatever the quota state is. -/
theorem like_duplicate (cfg : Config) (db : DB) (user_id profile_id : String)
    (now : Nat) (conflict : Bool) (r : LikeRow)
    (hu : (pyStrip user_id) ≠ "") (hp : (pyStrip profile_id) ≠ "")
    (hlike : findLike db.likes (pyStrip user_id) (pyStrip profile_id) = some r) :
    (like cfg db user_id profile_id now conflict).1
      = .ok (_get_likes_window cfg db (pyStrip user_id) now).likes_left
          (_get_likes_window cfg db (pyStrip user_id) now).reset_at
    ∧ (like cfg db user_id profile_id now conflict).2.likes = db.likes
    ∧ findCounter (like cfg db user_id profile_id now conflict).2.daily_like_counts
        (pyStrip user_id) (dateOf now)
      = some (_get_likes_window cfg db (pyStrip user_id) now).counter := by
  obtain ⟨db2, he, _, hlikes, hdlc, _, _, _, _, _⟩ := ensure_user_some db hu
  obtain ⟨hcc, hll, hcr, _, _⟩ := glw_counters_congr cfg (pyStrip user_id) now hdlc
  have hwlikes := (glw_frame cfg db2 (pyStrip user_id) now).1
  have hwfind := glw_find cfg db2 (pyStrip user_id) now
  unfold like
  rw [he]
  simp only [if_neg hp]
  rw [hwlikes, hlikes, hlike]
  simp only []
  exact ⟨by rw [hll, hcr], by rw [hwlikes, hlikes], by rw [hwfind, hcc]⟩

theorem addLikeNotification_likes (db : DB) (recipient uid pid : String)
    (ap : Option Profile) (now : Nat) :
    (addLikeNotification db recipient uid pid ap now).likes = db.likes := by
  unfold addLikeNotification
  split <;> rfl

theorem addLikeNotification_daily (db : DB) (recipient uid pid : String)
    (ap : Option Profile) (now : Nat) :
    (addLikeNotification db recipient uid pid ap now).daily_like_counts
      = db.daily_like_counts := by
  unfold addLikeNotification
  split <;> rfl

/-- Daily-mode accepted like: the first like of a visible profile with quota
available reports success with the decremented remaining and the next UTC
midnight, appends exactly one LikeRecord, and increments the counter by one. -/
theorem like_accept_daily (cfg : Config) (db : DB) (user_id profile_id : String)
    (now : Nat) (prof : Profile)
    (hW : cfg.LIKES_RESET_TEST_SECONDS = 0)
    (hu : (pyStrip user_id) ≠ "") (hp : (pyStrip profile_id) ≠ "")
    (hnolike : findLike db.likes (pyStrip user_id) (pyStrip profile_id) = none)
    (hquota : (_get_likes_window cfg db (pyStrip user_id) now).counter.count
      < cfg.FREE_LIKES_PER_DAY)
    (hprofile : findProfile db.profiles (pyStrip profile_id) = some prof)
    (hbanned : prof.is_banned = false) :
    (like cfg db user_id profile_id now false).1
      = .ok (cfg.FREE_LIKES_PER_DAY
          - ((_get_likes_window cfg db (pyStrip user_id) now).counter.count + 1))
        (_next_utc_midnight now)
    ∧ (like cfg db user_id profile_id now false).2.likes
      = db.likes ++ [{ user_id := (pyStrip user_id), profile_id := (pyStrip profile_id),
                       created_at := now }]
    ∧ findCounter (like cfg db user_id profile_id now false).2.daily_like_counts
        (pyStrip user_id) (dateOf now)
      = some { (_get_likes_window cfg db (pyStrip user_id) now).counter with
          count := (_get_likes_window cfg db (pyStrip user_id) now).counter.count + 1,
          updated_at := now } := by
  obtain ⟨db2, he, hprofs, hlikes, hdlc, _, _, _, _, _⟩ := ensure_user_some db hu
  obtain ⟨hcc, _, _, _, _⟩ := glw_counters_congr cfg (pyStrip user_id) now hdlc
  have hwlikes := (glw_frame cfg db2 (pyStrip user_id) now).1
  have hwprofiles := (glw_frame cfg db2 (pyStrip user_id) now).2
  have hwfind := glw_find cfg db2 (pyStrip user_id) now
  have hkey := glw_key cfg db2 (pyStrip user_id) now
  unfold like
  rw [he]
  simp only [if_neg hp]
  rw [show findLike (_get_likes_window cfg db2 (pyStrip user_id) now).db.likes
      (pyStrip user_id) (pyStrip profile_id) = none from by rw [hwlikes, hlikes]; exact hnolike]
  simp only []
  rw [if_neg (by rw [hcc]; omega)]
  rw [show findProfile (_get_likes_window cfg db2 (pyStrip user_id) now).db.profiles
      (pyStrip profile_id) = some prof from by rw [hwprofiles, hprofs]; exact hprofile]
  simp only []
  rw [if_neg (by simp [hbanned])]
  rw [if_neg (by simp : ¬ (false = true))]
  rw [if_neg (by simp [hW])]
  have hs : (findCounter (_get_likes_window cfg db2 (pyStrip user_id) now).db.daily_like_counts
      (pyStrip user_id) (dateOf now)).isSome = true := by rw [hwfind]; rfl
  have hfoundP : findCounter (addLikeNotification (updateCounter
      { users := (_get_likes_window cfg db2 (pyStrip user_id) now).db.users,
        profiles := (_get_likes_window cfg db2 (pyStrip user_id) now).db.profiles,
        likes := (_get_likes_window cfg db2 (pyStrip user_id) now).db.likes ++
          [{ user_id := (pyStrip user_id), profile_id := (pyStrip profile_id), created_at := now }],
        daily_like_counts :=
          (_get_likes_window cfg db2 (pyStrip user_id) now).db.daily_like_counts,
        notifications := (_get_likes_window cfg db2 (pyStrip user_id) now).db.notifications,
        threads := (_get_likes_window cfg db2 (pyStrip user_id) now).db.threads,
        messages := (_get_likes_window cfg db2 (pyStrip user_id) now).db.messages,
        entitlements := (_get_likes_window cfg db2 (pyStrip user_id) now).db.entitlements,
        thread_unlocks := (_get_likes_window cfg db2 (pyStrip user_id) now).db.thread_unlocks }
      { user_id := (_get_likes_window cfg db2 (pyStrip user_id) now).counter.user_id,
        day := (_get_likes_window cfg db2 (pyStrip user_id) now).counter.day,
        count := (_get_likes_window cfg db2 (pyStrip user_id) now).counter.count + 1,
        updated_at := now,
        window_started_at :=
          (_get_likes_window cfg db2 (pyStrip user_id) now).counter.window_started_at })
      prof.owner_user_id (pyStrip user_id) (pyStrip profile_id)
      (findProfileByOwner (_get_likes_window cfg db2 (pyStrip user_id) now).db.profiles
        (pyStrip user_id)) now).daily_like_counts (pyStrip user_id) (dateOf now)
      = some
          { user_id := (_get_likes_window cfg db2 (pyStrip user_id) now).counter.user_id,
            day := (_get_likes_window cfg db2 (pyStrip user_id) now).counter.day,
            count := (_get_likes_window cfg db2 (pyStrip user_id) now).counter.count + 1,
            updated_at := now,
            window_started_at :=
              (_get_likes_window cfg db2 (pyStrip user_id) now).counter.window_started_at } := by
    rw [addLikeNotification_daily]
    exact findCounter_updateCounter_self hkey.1 hkey.2 hs
  rw [glw_daily_found cfg _ (pyStrip user_id) now hW hfoundP]
  refine ⟨?_, ?_, ?_⟩
  · simp only []
    rw [hcc]
  · simp only []
    rw [addLikeNotification_likes]
    show (_get_likes_window cfg db2 (pyStrip user_id) now).db.likes ++ _ = _
    rw [hwlikes, hlikes]
  · simp only []
    rw [hfoundP, hcc]

/-- C3: Liking the same (user, profile) pair twice consumes quota exactly once
(first part, daily mode): both calls report the identical success payload, the
counter ends incremented by exactly 1 over the two calls, and exactly one
LikeRecord is written.  Second part: a repeat like of an already-liked profile
is a success no-op — reporting the current window, writing no LikeRecord and
consuming no quota — even when the user's quota is already exhausted. -/
theorem C3_double_like (cfg : Config) (db : DB) (user_id profile_id : String)
    (now : Nat) (prof : Profile)
    (hW : cfg.LIKES_RESET_TEST_SECONDS = 0)
    (hu : (pyStrip user_id) ≠ "") (hp : (pyStrip profile_id) ≠ "")
    (hnolike : findLike db.likes (pyStrip user_id) (pyStrip profile_id) = none)
    (hquota : (_get_likes_window cfg db (pyStrip user_id) now).counter.count
      < cfg.FREE_LIKES_PER_DAY)
    (hprofile : findProfile db.profiles (pyStrip profile_id) = some prof)
    (hbanned : prof.is_banned = false)
    (dbX : DB) (nowX : Nat) (rX : LikeRow)
    (hlikeX : findLike dbX.likes (pyStrip user_id) (pyStrip profile_id) = some rX)
    (_hexhX : cfg.FREE_LIKES_PER_DAY
      ≤ (_get_likes_window cfg dbX (pyStrip user_id) nowX).counter.count) :
    ((like cfg db user_id profile_id now false).1
        = .ok (cfg.FREE_LIKES_PER_DAY
            - ((_get_likes_window cfg db (pyStrip user_id) now).counter.count + 1))
          (_next_utc_midnight now)
      ∧ (like cfg (like cfg db user_id profile_id now false).2 user_id profile_id now false).1
        = (like cfg db user_id profile_id now false).1
      ∧ countOf (like cfg (like cfg db user_id profile_id now false).2
          user_id profile_id now false).2 (pyStrip user_id) (dateOf now)
        = (_get_likes_window cfg db (pyStrip user_id) now).counter.count + 1
      ∧ countLikes (like cfg (like cfg db user_id profile_id now false).2
          user_id profile_id now false).2.likes (pyStrip user_id) (pyStrip profile_id)
        = countLikes db.likes (pyStrip user_id) (pyStrip profile_id) + 1)
    ∧ ((like cfg dbX user_id profile_id nowX false).1
        = .ok (_get_likes_window cfg dbX (pyStrip user_id) nowX).likes_left
            (_get_likes_window cfg dbX (pyStrip user_id) nowX).reset_at
      ∧ (like cfg dbX user_id profile_id nowX false).2.likes = dbX.likes
      ∧ findCounter (like cfg dbX user_id profile_id nowX false).2.daily_like_counts
          (pyStrip user_id) (dateOf nowX)
        = some (_get_likes_window cfg dbX (pyStrip user_id) nowX).counter) := by
  constructor
  · obtain ⟨ha1, ha2, ha3⟩ :=
      like_accept_daily cfg db user_id profile_id now prof hW hu hp hnolike hquota hprofile
        hbanned
    have hlike1 : findLike (like cfg db user_id profile_id now false).2.likes
        (pyStrip user_id) (pyStrip profile_id)
        = some { user_id := (pyStrip user_id), profile_id := (pyStrip profile_id),
                 created_at := now } := by
      rw [ha2, findLike_append, hnolike, findLike_singleton rfl rfl]
      rfl
    obtain ⟨hd1, hd2, hd3⟩ := like_duplicate cfg (like cfg db user_id profile_id now false).2
      user_id profile_id now false _ hu hp hlike1
    refine ⟨ha1, ?_, ?_, ?_⟩
    · rw [hd1, ha1, glw_daily_found cfg _ (pyStrip user_id) now hW ha3]
    · unfold countOf
      rw [hd3, glw_daily_found cfg _ (pyStrip user_id) now hW ha3]
      rfl
    · rw [hd2, ha2, countLikes_append, countLikes_singleton rfl rfl]
  · exact like_duplicate cfg dbX user_id profile_id nowX false rX hu hp hlikeX

/-- Witness for C3: fresh pair ("u","p1") against a visible profile, and a
store where ("u","p1") is already liked with the counter at the limit. -/
theorem C3_witness :
    let cfg : Config := ⟨5, 0, false, "k"⟩
    let db : DB := { DB.empty with
      profiles := [{ id := "p1", owner_user_id := "o", photo := none, photo2 := none,
                     is_banned := false }] }
    let dbX : DB := { DB.empty with
      likes := [{ user_id := "u", profile_id := "p1", created_at := 1 }],
      daily_like_counts := [{ user_id := "u", day := 0, count := 5, updated_at := 1,
                              window_started_at := none }] }
    ((like cfg db "u" "p1" 40 false).1
        = .ok (5 - ((_get_likes_window cfg db "u" 40).counter.count + 1))
          (_next_utc_midnight 40)
      ∧ (like cfg (like cfg db "u" "p1" 40 false).2 "u" "p1" 40 false).1
        = (like cfg db "u" "p1" 40 false).1
      ∧ countOf (like cfg (like cfg db "u" "p1" 40 false).2 "u" "p1" 40 false).2 "u"
          (dateOf 40)
        = (_get_likes_window cfg db "u" 40).counter.count + 1
      ∧ countLikes (like cfg (like cfg db "u" "p1" 40 false).2 "u" "p1" 40 false).2.likes
          "u" "p1"
        = countLikes db.likes "u" "p1" + 1)
    ∧ ((like cfg dbX "u" "p1" 41 false).1
        = .ok (_get_likes_window cfg dbX "u" 41).likes_left
            (_get_likes_window cfg dbX "u" 41).reset_at
      ∧ (like cfg dbX "u" "p1" 41 false).2.likes = dbX.likes
      ∧ findCounter (like cfg dbX "u" "p1" 41 false).2.daily_like_counts "u" (dateOf 41)
        = some (_get_likes_window cfg dbX "u" 41).counter) :=
  C3_double_like ⟨5, 0, false, "k"⟩ _ "u" "p1" 40
    { id := "p1", owner_user_id := "o", photo := none, photo2 := none, is_banned := false }
    (by decide) (by decide) (by decide) (by decide) (by decide) (by decide) (by decide)
    _ 41 { user_id := "u", profile_id := "p1", created_at := 1 }
    (by decide) (by decide)

/-! ### The quota invariant (C1) -/

/-- The arguments of one `POST /likes` request (`conflict` marks a final
commit lost to a concurrent writer). -/
structure LikeCall where
  user_id : String
  profile_id : String
  now : Nat
  conflict : Bool
deriving Repr, DecidableEq

/-- One `like` request as a store transformer. -/
def likeStep (cfg : Config) (db : DB) (c : LikeCall) : DB :=
  (like cfg db c.user_id c.profile_id c.now c.conflict).2

/-- A sequence of `like` requests executed one after the other. -/
def likeSeq (cfg : Config) (db : DB) (calls : List LikeCall) : DB :=
  calls.foldl (likeStep cfg) db

/-- Every stored counter is within the configured daily limit. -/
def countersBounded (cfg : Config) (db : DB) : Prop :=
  ∀ c ∈ db.daily_like_counts, c.count ≤ cfg.FREE_LIKES_PER_DAY

instance (cfg : Config) (db : DB) : Decidable (countersBounded cfg db) :=
  List.decidableBAll _ _

theorem countersBounded_congr {cfg : Config} {db db' : DB}
    (h : db'.daily_like_counts = db.daily_like_counts)
    (hb : countersBounded cfg db) : countersBounded cfg db' := by
  intro c hc
  rw [h] at hc
  exact hb c hc

theorem gocdlc_bounded {cfg : Config} {db : DB} (u : String) (d now : Nat)
    (h : countersBounded cfg db) :
    countersBounded cfg (_get_or_create_daily_like_counter db u d now).2
    ∧ (_get_or_create_daily_like_counter db u d now).1.count ≤ cfg.FREE_LIKES_PER_DAY := by
  constructor
  · intro c hc
    rcases gocdlc_counters_cases db u d now c hc with h1 | h1
    · exact h c h1
    · rw [h1]; exact Nat.zero_le _
  · rcases gocdlc_row_cases db u d now with h1 | h1
    · exact h _ h1
    · rw [h1]; exact Nat.zero_le _

theorem updateCounter_bounded {cfg : Config} {db : DB} {c : DailyLikeCount}
    (h : countersBounded cfg db) (hc : c.count ≤ cfg.FREE_LIKES_PER_DAY) :
    countersBounded cfg (updateCounter db c) := by
  intro x hx
  rcases updateCounter_mem hx with rfl | hx
  · exact hc
  · exact h x hx

theorem glw_bounded {cfg : Config} {db : DB} (u : String) (now : Nat)
    (h : countersBounded cfg db) :
    countersBounded cfg (_get_likes_window cfg db u now).db
    ∧ (_get_likes_window cfg db u now).counter.count ≤ cfg.FREE_LIKES_PER_DAY := by
  obtain ⟨hb, hr⟩ := gocdlc_bounded u (dateOf now) now h
  by_cases hW : 0 < cfg.LIKES_RESET_TEST_SECONDS
  · cases hws : (_get_or_create_daily_like_counter db u (dateOf now) now).1.window_started_at with
    | some w =>
        by_cases hexp : w + cfg.LIKES_RESET_TEST_SECONDS ≤ now
        · rw [glw_roll_reset cfg db u now hW hws hexp]
          exact ⟨updateCounter_bounded hb (Nat.zero_le _), Nat.zero_le _⟩
        · rw [glw_roll_live cfg db u now hW hws hexp]
          exact ⟨hb, hr⟩
    | none =>
        rw [glw_roll_fresh cfg db u now hW hws]
        exact ⟨updateCounter_bounded hb hr, hr⟩
  · rw [glw_daily cfg db u now (by omega)]
    exact ⟨hb, hr⟩

theorem ite_count_le (c : Prop) [Decidable c] (a b : DailyLikeCount) (K : Nat)
    (ha : a.count ≤ K) (hb : b.count ≤ K) : (if c then a else b).count ≤ K := by
  split <;> assumption

/-- One `like` request preserves the quota invariant: the window computation
only copies, zeroes or creates counters, and the increment is guarded by
`count < limit`. -/
theorem like_bounded (cfg : Config) (db : DB) (user_id profile_id : String) (now : Nat)
    (conflict : Bool) (h : countersBounded cfg db) :
    countersBounded cfg (like cfg db user_id profile_id now conflict).2 := by
  by_cases hu : (pyStrip user_id) = ""
  · unfold like _ensure_user
    rw [if_pos hu]
    exact h
  · obtain ⟨db2, he, _, _, hdlc, _, _, _, _, _⟩ := ensure_user_some db hu
    have h2 : countersBounded cfg db2 := countersBounded_congr hdlc h
    have hw := glw_bounded (pyStrip user_id) now h2
    unfold like
    rw [he]
    by_cases hp : (pyStrip profile_id) = ""
    · simp only [if_pos hp]
      exact h2
    · simp only [if_neg hp]
      cases hfl : findLike (_get_likes_window cfg db2 (pyStrip user_id) now).db.likes
          (pyStrip user_id) (pyStrip profile_id) with
      | some r =>
          simp only []
          exact hw.1
      | none =>
          simp only []
          by_cases hq : cfg.FREE_LIKES_PER_DAY
              ≤ (_get_likes_window cfg db2 (pyStrip user_id) now).counter.count
          · rw [if_pos hq]
            exact hw.1
          · rw [if_neg hq]
            cases hfp : findProfile (_get_likes_window cfg db2 (pyStrip user_id) now).db.profiles
                (pyStrip profile_id) with
            | none =>
                simp only []
                exact hw.1
            | some prof =>
                simp only []
                by_cases hbn : prof.is_banned = true
                · rw [if_pos hbn]
                  exact hw.1
                · rw [if_neg hbn]
                  by_cases hcf : conflict = true
                  · rw [if_pos hcf]
                    exact hw.1
                  · rw [if_neg hcf]
                    refine (glw_bounded _ _ ?_).1
                    refine countersBounded_congr (addLikeNotification_daily _ _ _ _ _ _) ?_
                    refine updateCounter_bounded (countersBounded_congr rfl hw.1) ?_
                    refine ite_count_le _ _ _ _ ?_ ?_ <;>
                      · show (_get_likes_window cfg db2 (pyStrip user_id) now).counter.count + 1
                          ≤ cfg.FREE_LIKES_PER_DAY
                        omega

/-- C1: for every user and period, `count` stays within `0 ≤ count ≤ limit`
across any sequence of sequential `like` requests: starting from a store whose
counters are all within the limit (`count` is a natural, so `0 ≤ count` is
automatic), every prefix of the sequence — in particular the state before and
after every call — still has every counter at most the configured limit, a
like being accepted and the counter incremented only under the `count < limit`
gate. -/
theorem C1_quota_invariant (cfg : Config) (db : DB) (calls : List LikeCall)
    (h : countersBounded cfg db) : countersBounded cfg (likeSeq cfg db calls) := by
  induction calls generalizing db with
  | nil => exact h
  | cons c rest ih =>
      exact ih _ (like_bounded cfg db c.user_id c.profile_id c.now c.conflict h)

/-- Witness for C1: limit 2, seven requests (duplicates, conflicts, a sixth
profile past the limit) from the empty store. -/
theorem C1_witness :
    countersBounded ⟨2, 0, false, "k"⟩ DB.empty
    ∧ countersBounded ⟨2, 0, false, "k"⟩ (likeSeq ⟨2, 0, false, "k"⟩
        ({ DB.empty with profiles :=
            [{ id := "p1", owner_user_id := "o", photo := none, photo2 := none,
               is_banned := false },
             { id := "p2", owner_user_id := "o", photo := none, photo2 := none,
               is_banned := false },
             { id := "p3", owner_user_id := "o", photo := none, photo2 := none,
               is_banned := false }] })
        [⟨"u", "p1", 10, false⟩, ⟨"u", "p1", 11, false⟩, ⟨"u", "p2", 12, false⟩,
         ⟨"u", "p3", 13, false⟩, ⟨"u", "p3", 14, true⟩, ⟨"v", "p1", 15, false⟩,
         ⟨"u", "missing", 16, false⟩]) :=
  ⟨by decide,
   C1_quota_invariant ⟨2, 0, false, "k"⟩ _ _ (by decide)⟩

end BlackWithin
